import Mathlib

/-!
Verification development for the Sheets instruction-grounding pipeline
(`ai_agent.py`).  The Python source is shallowly embedded: pure helpers
become Lean functions, the remote spreadsheet service and the LLM oracle
are external collaborators and enter as explicit data (an `Env` record and
a `decode` / `score` parameter), and Python exceptions are modelled by
`Except String`.  Machine floats carried by the JSON payloads are modelled
by `ℚ`; the third-party fuzzy scorer (`rapidfuzz` `fuzz.WRatio`) and the
stdlib JSON decoder (`json.loads`) are external libraries and are passed
in as parameters (`score`, `decode`).
-/


deriving instance DecidableEq for Except

/-- Python-style substring test: `needle in hay` on strings. -/
def strContains (hay needle : String) : Bool :=
  (List.range (hay.data.length + 1)).any (fun i => needle.data.isPrefixOf (hay.data.drop i))

/-- Python `str.lower()` restricted to its ASCII behaviour (the only case the
agent exercises: header names and color names). -/
def lowerStr (s : String) : String :=
  ⟨s.data.map Char.toLower⟩

/-- Python `str.strip()` on a char list: drop whitespace from both ends. -/
def pyStrip (l : List Char) : List Char :=
  ((l.dropWhile Char.isWhitespace).reverse.dropWhile Char.isWhitespace).reverse

/-- Python `str.strip()`. -/
def pyStripStr (s : String) : String :=
  ⟨pyStrip s.data⟩

/-- Fuel-indexed Python `str.replace(pat, rep)` on char lists; the fuel is
instantiated with the string length plus one, which is always sufficient. -/
def replaceAllF (pat rep : List Char) : ℕ → List Char → List Char
  | 0, s => s
  | _ + 1, [] => []
  | fuel + 1, c :: rest =>
    if pat ≠ [] ∧ pat.isPrefixOf (c :: rest) then
      rep ++ replaceAllF pat rep fuel ((c :: rest).drop pat.length)
    else
      c :: replaceAllF pat rep fuel rest

/-- Python `s.replace(pat, rep)` (on the underlying char lists). -/
def replaceAll (s pat rep : List Char) : List Char :=
  replaceAllF pat rep (s.length + 1) s

/-- One cell of the sheet as returned by the values API: its string form
(`raw`, what Python's `str()` yields) together with the result of
`float(raw)` — `some v` when the text parses as the number `v`, `none`
when `float` raises. -/
structure Cell where
  raw : String
  asNum : Option ℚ
deriving DecidableEq

/-- `row[col]` followed by `float(...)`: `none` when the column is out of
range for this row or the cell does not parse as a number. -/
def cellNum? (row : List Cell) (col : ℕ) : Option ℚ :=
  (row.get? col).bind (·.asNum)

-- -------------------------------------------------------------------
-- FUZZY MATCHING (source: fuzzy_match_column, lines 377-392)
-- -------------------------------------------------------------------

/-- Model of `rapidfuzz.process.extractOne(target, columns, scorer=...)`:
scan the candidates and keep the first one attaining the maximal score
(rapidfuzz replaces the running best only on a strictly larger score).
The scorer itself (`fuzz.WRatio` in the source) is an external library
function and is a parameter. -/
def extractOne (score : String → String → ℚ) (target : String) :
    List String → Option (String × ℚ)
  | [] => none
  | c :: rest =>
    match extractOne score target rest with
    | none => some (c, score target c)
    | some (b, s) =>
      if s > score target c then some (b, s) else some (c, score target c)

/-- The substring fallback test of `fuzzy_match_column`:
`target_l in c.lower() or c.lower() in target_l`. -/
def substPred (target : String) (c : String) : Bool :=
  strContains (lowerStr c) (lowerStr target) || strContains (lowerStr target) (lowerStr c)

/-- `fuzzy_match_column(target, columns, threshold=60)`.  Raises
`ValueError` on an empty candidate list; otherwise: best `score` match if
its score reaches the threshold, else the first case-insensitive
substring containment match, else the best match regardless of score
(`match[0] if match else columns[0]`). -/
def fuzzy_match_column (score : String → String → ℚ) (target : String)
    (columns : List String) (threshold : ℚ) : Except String String :=
  if columns = [] then .error "No columns provided"
  else
    match extractOne score target columns with
    | some m =>
      if m.2 ≥ threshold then .ok m.1
      else
        match columns.find? (substPred target) with
        | some c => .ok c
        | none => .ok m.1
    | none =>
      match columns.find? (substPred target) with
      | some c => .ok c
      | none =>
        match columns with
        | c :: _ => .ok c
        | [] => .error "IndexError: list index out of range"

/-- A scorer stub used for concrete witnesses (any scorer works for them,
since the facts exercised do not depend on the scores). -/
def zeroScore : String → String → ℚ := fun _ _ => 0

-- -------------------------------------------------------------------
-- DATA MODEL: instructions (parsed LLM JSON), sort specs, rules
-- -------------------------------------------------------------------

/-- One entry of a `multicolumn_sort` instruction's `"sort"` list.
`column = none` models a spec without a (string) `"column"` key;
`ascending = none` models a missing `"ascending"` key
(`s.get("ascending", True)` supplies the default at use sites). -/
structure SortSpec where
  column : Option String := none
  ascending : Option Bool := none
deriving DecidableEq

/-- One entry of an instruction's `"rules"` list (used by `color_multi`
and `color_number_range`).  `none` models an absent key; numeric JSON
values are modelled by `ℚ`. -/
structure Rule where
  column : Option String := none
  equals : Option String := none
  operator : Option String := none
  value : Option ℚ := none
  min : Option ℚ := none
  max : Option ℚ := none
  color : Option String := none
deriving DecidableEq

/-- The instruction dictionary produced by decoding the oracle's JSON,
with one field per key the pipeline reads (`none` = key absent).  Python's
`"from"` and `"to"` keys are `fromCol` and `toCol` (`from`/`to` are Lean
keywords) and the internal
`"_auto_new_column"` marker is `auto_new_column`.  Fields are modelled at
the types the LLM prompt's JSON schema assigns them. -/
structure Instruction where
  action : Option String := none
  column : Option String := none
  old_name : Option String := none
  new_name : Option String := none
  fromCol : Option String := none
  toCol : Option String := none
  target_column : Option String := none
  auto_new_column : Option ℕ := none
  sort : Option (List SortSpec) := none
  rules : Option (List Rule) := none
  operator : Option String := none
  value : Option ℚ := none
  ascending : Option Bool := none
  row : Option ℤ := none
  position : Option ℤ := none
  new_position : Option ℤ := none
  column_name : Option String := none
  formula : Option String := none
  color : Option String := none
  equals : Option String := none
  range : Option String := none
  rows : Option ℤ := none
  cols : Option ℤ := none
  merge_type : Option String := none
  from_row : Option ℤ := none
  to_row : Option ℤ := none
deriving DecidableEq

-- -------------------------------------------------------------------
-- GROUNDING (source: ground_columns, lines 395-442)
-- -------------------------------------------------------------------

/-- Grounding of one of the simple keys `"column"`, `"old_name"`,
`"from"`: if present (as a string) and not verbatim among the schema
columns, rewrite it through the fuzzy resolver.  (The `"to"` key is
iterated over in the source but excluded by `key != "to"`, so it has no
grounding function.) -/
def groundField (score : String → String → ℚ) (cols : List String) :
    Option String → Except String (Option String)
  | none => .ok none
  | some s =>
    if s ∈ cols then .ok (some s)
    else (fuzzy_match_column score s cols 60).map some

/-- The `target_column` block of `ground_columns`: an empty/blank target
synthesizes `Column_<len+1>` and sets the `_auto_new_column` marker; a
non-blank target absent from the schema is fuzzy-rewritten. -/
def groundTarget (score : String → String → ℚ) (cols : List String)
    (tc : Option String) (auto : Option ℕ) :
    Except String (Option String × Option ℕ) :=
  match tc with
  | none => .ok (none, auto)
  | some t =>
    if pyStripStr t = "" then
      .ok (some ("Column_" ++ toString (cols.length + 1)), some cols.length)
    else if t ∈ cols then .ok (some t, auto)
    else (fuzzy_match_column score t cols 60).map (fun m => (some m, auto))

/-- Grounding of one `multicolumn_sort` spec (`sort_spec["column"]`). -/
def groundSortSpec (score : String → String → ℚ) (cols : List String)
    (sp : SortSpec) : Except String SortSpec :=
  match sp.column with
  | some s =>
    if s ∈ cols then .ok sp
    else (fuzzy_match_column score s cols 60).map (fun m => { sp with column := some m })
  | none => .ok sp

/-- Grounding of one rule dict that contains a `"column"` key. -/
def groundRule (score : String → String → ℚ) (cols : List String)
    (r : Rule) : Except String Rule :=
  match r.column with
  | some s =>
    if s ∈ cols then .ok r
    else (fuzzy_match_column score s cols 60).map (fun m => { r with column := some m })
  | none => .ok r

/-- The `for sort_spec in instruction.get("sort", [])` loop. -/
def groundSpecs (score : String → String → ℚ) (cols : List String) :
    List SortSpec → Except String (List SortSpec)
  | [] => .ok []
  | sp :: rest => do
    let sp' ← groundSortSpec score cols sp
    let rest' ← groundSpecs score cols rest
    .ok (sp' :: rest')

/-- The `for r in instruction["rules"]` loop. -/
def groundRules (score : String → String → ℚ) (cols : List String) :
    List Rule → Except String (List Rule)
  | [] => .ok []
  | r :: rest => do
    let r' ← groundRule score cols r
    let rest' ← groundRules score cols rest
    .ok (r' :: rest')

/-- The `"sort"` block of `ground_columns`: only runs for action
`multicolumn_sort`. -/
def groundSortOpt (score : String → String → ℚ) (cols : List String)
    (action : Option String) (sort : Option (List SortSpec)) :
    Except String (Option (List SortSpec)) :=
  if action = some "multicolumn_sort" then
    match sort with
    | some specs => (groundSpecs score cols specs).map some
    | none => .ok none
  else .ok sort

/-- The `"rules"` block of `ground_columns`: runs for any action. -/
def groundRulesOpt (score : String → String → ℚ) (cols : List String) :
    Option (List Rule) → Except String (Option (List Rule))
  | some rs => (groundRules score cols rs).map some
  | none => .ok none

/-- `ground_columns(instruction, actual_columns)`: rewrite the column
references of an instruction against the schema columns. -/
def ground_columns (score : String → String → ℚ) (inst : Instruction)
    (cols : List String) : Except String Instruction := do
  let column ← groundField score cols inst.column
  let old_name ← groundField score cols inst.old_name
  let fromCol ← groundField score cols inst.fromCol
  let tc ← groundTarget score cols inst.target_column inst.auto_new_column
  let sort ← groundSortOpt score cols inst.action inst.sort
  let rules ← groundRulesOpt score cols inst.rules
  .ok { inst with
        column := column, old_name := old_name, fromCol := fromCol,
        target_column := tc.1, auto_new_column := tc.2,
        sort := sort, rules := rules }

-- -------------------------------------------------------------------
-- A1 NOTATION (source: a1_to_indexes, lines 19-43) AND COLUMN LETTERS
-- -------------------------------------------------------------------

/-- Python `a1_range.split(":")` (single-character separator). -/
def splitColon : List Char → List (List Char)
  | [] => [[]]
  | c :: rest =>
    if c = ':' then [] :: splitColon rest
    else
      match splitColon rest with
      | [] => [[c]]
      | g :: gs => (c :: g) :: gs

/-- The character class `[A-Z]` of the cell regex. -/
def isUpperAZ (c : Char) : Bool :=
  decide ('A' ≤ c) && decide (c ≤ 'Z')

/-- The character class `[0-9]` of the cell regex. -/
def isDigit09 (c : Char) : Bool :=
  decide ('0' ≤ c) && decide (c ≤ '9')

/-- `re.match(r"([A-Z]+)([0-9]+)", s)`: an anchored match of one or more
uppercase letters followed by one or more digits (trailing characters are
ignored, as with `re.match`).  Returns the two groups, or `none` when the
pattern does not match (in Python the subsequent `.groups()` then raises
`AttributeError`). -/
def matchCell (l : List Char) : Option (List Char × List Char) :=
  let letters := l.takeWhile isUpperAZ
  let rest := l.dropWhile isUpperAZ
  let digits := rest.takeWhile isDigit09
  if letters = [] ∨ digits = [] then none else some (letters, digits)

/-- `int(...)` on a digit group. -/
def digitsVal (l : List Char) : ℕ :=
  l.foldl (fun a c => 10 * a + (c.toNat - 48)) 0

/-- The inner `col_to_index` of `a1_to_indexes`:
`sum((ord(char) - 64) * 26**exp for exp, char in enumerate(reversed(col))) - 1`. -/
def col_to_index (col : List Char) : ℤ :=
  col.reverse.enum.foldl (fun val p => val + ((p.2.toNat : ℤ) - 64) * 26 ^ p.1) 0 - 1

/-- `a1_to_indexes` on the underlying char list.  A range without exactly
one `:` makes the tuple unpacking raise `ValueError`; an endpoint that the
cell regex does not match makes `.groups()` raise `AttributeError`. -/
def a1core (l : List Char) : Except String (ℤ × ℤ × ℤ × ℤ) :=
  match splitColon l with
  | [s, e] =>
    match matchCell s, matchCell e with
    | some (sc, sr), some (ec, er) =>
      .ok ((digitsVal sr : ℤ) - 1, (digitsVal er : ℤ), col_to_index sc, col_to_index ec)
    | _, _ => .error "AttributeError: NoneType object has no attribute groups"
  | _ => .error "ValueError: not enough values to unpack"

/-- `a1_to_indexes(a1_range)`: `(start_row, end_row, start_col, end_col)`,
zero-based rows/cols as the Google API expects. -/
def a1_to_indexes (a1_range : String) : Except String (ℤ × ℤ × ℤ × ℤ) :=
  a1core a1_range.data

/-- Fuel-indexed loop of `index_to_col_letter` (`index, rem = divmod(index - 1, 26)`;
the fuel, instantiated with the start value, is always sufficient). -/
def colLettersF : ℕ → ℕ → List Char → List Char
  | _, 0, acc => acc
  | 0, _ + 1, acc => acc
  | fuel + 1, k + 1, acc => colLettersF fuel (k / 26) (Char.ofNat (65 + k % 26) :: acc)

/-- `index_to_col_letter(index)`: 0-based index to Excel-style letters;
a negative index leaves the `while index > 0` loop unentered. -/
def index_to_col_letter (index : ℤ) : String :=
  if index + 1 ≤ 0 then "" else ⟨colLettersF (index + 1).toNat (index + 1).toNat []⟩

/-- Fuel-indexed loop of `index_to_column_letter`
(`letters = chr(index % 26 + 65) + letters; index = index // 26 - 1`). -/
def colLetters2F : ℕ → ℕ → List Char → List Char
  | fuel, k, acc =>
    let acc' := Char.ofNat (k % 26 + 65) :: acc
    if k < 26 then acc'
    else
      match fuel with
      | 0 => acc'
      | fuel + 1 => colLetters2F fuel (k / 26 - 1) acc'

/-- `index_to_column_letter(index)` (module level, line 1210, duplicated
inside `execute`): 0-based column index to letters; a negative index
leaves the `while index >= 0` loop unentered. -/
def index_to_column_letter (index : ℤ) : String :=
  if index < 0 then "" else ⟨colLetters2F index.toNat index.toNat []⟩

-- -------------------------------------------------------------------
-- COLORS (source: COLOR_MAP, lines 56-67)
-- -------------------------------------------------------------------

/-- `COLOR_MAP.get(name, (1, 1, 0))`: the closed color table with the
yellow default for unknown names. -/
def COLOR_MAP (name : String) : ℚ × ℚ × ℚ :=
  if name = "red" then (1, 0, 0)
  else if name = "green" then (0, 1, 0)
  else if name = "blue" then (0, 0, 1)
  else if name = "yellow" then (1, 1, 0)
  else if name = "orange" then (1, 0.6, 0)
  else if name = "purple" then (0.6, 0, 1)
  else if name = "pink" then (1, 0.6, 0.8)
  else if name = "cyan" then (0, 1, 1)
  else if name = "gray" then (0.6, 0.6, 0.6)
  else if name = "lightblue" then (0.7, 0.85, 1)
  else (1, 1, 0)

-- -------------------------------------------------------------------
-- WIRE-LEVEL REQUESTS
-- -------------------------------------------------------------------

/-- One mutation request sent to the spreadsheet service, one constructor
per Google Sheets request type the agent emits (the exact nested-dict
wire shape is abstracted into the constructor's fields).  `valuesUpdate`
covers the `values().update` calls (range string plus written rows). -/
inductive Request where
  | sortRange (sheetId : ℕ) (startRow endRow startCol endCol : ℕ)
      (specs : List (ℕ × Bool))
  | setBasicFilter (sheetId colIndex : ℕ) (condType : String) (value : ℚ)
  | deleteDimension (sheetId : ℕ) (dim : String) (startIndex endIndex : ℤ)
  | insertDimension (sheetId : ℕ) (dim : String) (startIndex endIndex : ℤ)
      (inheritFromBefore : Bool)
  | moveDimension (sheetId : ℕ) (dim : String) (startIndex endIndex destIndex : ℤ)
  | deleteDuplicates (sheetId colIndex : ℕ)
  | unmergeAll (sheetId : ℕ)
  | mergeCellsReq (sheetId : ℕ) (startRow endRow startCol endCol : ℤ)
      (mergeType : String)
  | repeatCellColor (sheetId : ℕ) (startRow endRow : ℤ)
      (colSpan : Option (ℤ × ℤ)) (rgb : ℚ × ℚ × ℚ)
  | clearFormat (sheetId : ℕ)
  | freezeReq (sheetId : ℕ) (frozenRows frozenCols : ℤ)
  | valuesUpdate (range : String) (values : List (List String))
deriving DecidableEq

-- -------------------------------------------------------------------
-- DICTIONARY / LIST ACCESS HELPERS
-- -------------------------------------------------------------------

/-- Python `instruction[key]`: `KeyError` when the key is absent. -/
def pyGet {α : Type} (v : Option α) (key : String) : Except String α :=
  match v with
  | some x => .ok x
  | none => .error ("KeyError: " ++ key)

/-- Python `list.index(x)`: index of first occurrence, `ValueError` when
absent. -/
def pyIndex (l : List String) (x : String) : Except String ℕ :=
  match l.findIdx? (fun c => c == x) with
  | some i => .ok i
  | none => .error ("ValueError: '" ++ x ++ "' is not in list")

/-- `list.index(x)` at call sites already guarded by `x in list`. -/
def idxOf (l : List String) (x : String) : ℕ :=
  l.findIdx (fun c => c == x)

/-- Index the rows of a tail of the sheet with their 1-based sheet row
numbers: `enumerate(all_vals[1:], start=1)`. -/
def idxFrom {α : Type} (i : ℕ) : List α → List (ℕ × α)
  | [] => []
  | a :: l => (i, a) :: idxFrom (i + 1) l

-- -------------------------------------------------------------------
-- SORT / FILTER / ROW DELETION (source lines 448-598, 1385-1406)
-- -------------------------------------------------------------------

/-- `apply_sort`: one `sortRange` request over all columns. -/
def apply_sort (sheet_id : ℕ) (col_index start_row end_row num_cols : ℕ)
    (ascending : Bool) : Request :=
  .sortRange sheet_id start_row end_row 0 num_cols [(col_index, ascending)]

/-- `apply_multi_sort`: one `sortRange` request with the given specs. -/
def apply_multi_sort (sheet_id : ℕ) (specs : List (ℕ × Bool))
    (start_row end_row num_cols : ℕ) : Request :=
  .sortRange sheet_id start_row end_row 0 num_cols specs

/-- `condition_map.get(operator, "NUMBER_EQ")` of `apply_filter`. -/
def condMap (op : String) : String :=
  if op = ">" then "NUMBER_GREATER"
  else if op = "<" then "NUMBER_LESS"
  else if op = "=" then "NUMBER_EQ"
  else if op = "!=" then "NUMBER_NOT_EQ"
  else if op = ">=" then "NUMBER_GREATER_THAN_EQ"
  else if op = "<=" then "NUMBER_LESS_THAN_EQ"
  else "NUMBER_EQ"

/-- `apply_filter`: one `setBasicFilter` request. -/
def apply_filter (sheet_id col_index : ℕ) (operator : String) (value : ℚ) : Request :=
  .setBasicFilter sheet_id col_index (condMap operator) value

/-- `sorted(row_indices, reverse=True)`: Python's descending sort (for
natural numbers, equal elements are indistinguishable, so the stable
ascending sort followed by `reverse` coincides with it). -/
def sortedDesc (l : List ℕ) : List ℕ :=
  (List.insertionSort (· ≤ ·) l).reverse

/-- `delete_rows_batch(service, spreadsheet_id, sheet_id, row_indices)`:
one `deleteDimension` request per index, in the order the loop visits
them (descending). -/
def delete_rows_batch (sheet_id : ℕ) (row_indices : List ℕ) : List Request :=
  (sortedDesc row_indices).map
    (fun (idx : ℕ) => .deleteDimension sheet_id "ROWS" (idx : ℤ) ((idx : ℤ) + 1))

/-- The operator chain of the `delete_rows` branch of `execute`
(lines 1398-1403), in source order. -/
def opHolds (op : String) (cell_val val : ℚ) : Bool :=
  (op == "<" && decide (cell_val < val)) ||
  (op == ">" && decide (cell_val > val)) ||
  (op == "=" && decide (cell_val = val)) ||
  (op == "!=" && decide (cell_val ≠ val)) ||
  (op == "<=" && decide (cell_val ≤ val)) ||
  (op == ">=" && decide (cell_val ≥ val))

/-- Whether one data row is selected for deletion by the `delete_rows`
condition: cell present, parseable as a number, and satisfying the
operator (a missing or unparseable cell is skipped by the
`try/except: pass`). -/
def rowPasses (col : ℕ) (op : String) (val : ℚ) (row : List Cell) : Bool :=
  match cellNum? row col with
  | some v => opHolds op v val
  | none => false

/-- The row loop of the `delete_rows` branch (lines 1392-1406):
`for i, row in enumerate(all_vals[1:], start=1)` collecting the sheet row
indices to delete; the argument `i` is the row number of the first row of
the tail. -/
def delete_rows_indices (col : ℕ) (op : String) (val : ℚ) :
    ℕ → List (List Cell) → List ℕ
  | _, [] => []
  | i, row :: rest =>
    if rowPasses col op val row then i :: delete_rows_indices col op val (i + 1) rest
    else delete_rows_indices col op val (i + 1) rest

-- -------------------------------------------------------------------
-- COLORING (sources: color_range/row/column/if/multi, color_number_range)
-- -------------------------------------------------------------------

/-- `color_range`: parse the A1 range and emit one `repeatCell` request
with explicit row and column bounds. -/
def color_range (sheet_id : ℕ) (a1_range : String) (rgb : ℚ × ℚ × ℚ) :
    Except String Request := do
  let q ← a1_to_indexes a1_range
  .ok (.repeatCellColor sheet_id q.1 q.2.1 (some (q.2.2.1, q.2.2.2)) rgb)

/-- `color_row(row)`: colors via the row-only range `f"{row}:{row}"`
(`str(row)` is `Int.repr`). -/
def color_row (sheet_id : ℕ) (row : ℤ) (rgb : ℚ × ℚ × ℚ) : Except String Request :=
  color_range sheet_id (Int.repr row ++ ":" ++ Int.repr row) rgb

/-- `color_column(column_letter)`: colors via the letter-only range
`f"{column_letter}:{column_letter}"`. -/
def color_column (sheet_id : ℕ) (column_letter : String) (rgb : ℚ × ℚ × ℚ) :
    Except String Request :=
  color_range sheet_id (column_letter ++ ":" ++ column_letter) rgb

/-- The row-matching predicate shared by `color_if` and `color_multi`:
`str(row[col_idx]).strip().lower() == value.lower()` guarded by
`col_idx < len(row)`. -/
def rowEquals (col : ℕ) (value : String) (row : List Cell) : Bool :=
  match row.get? col with
  | some c => lowerStr (pyStripStr c.raw) == lowerStr value
  | none => false

/-- The matching-row scan of the `color_if` branch (lines 1544-1550). -/
def matchingRows (col : ℕ) (value : String) : ℕ → List (List Cell) → List ℕ
  | _, [] => []
  | i, row :: rest =>
    if rowEquals col value row then i :: matchingRows col value (i + 1) rest
    else matchingRows col value (i + 1) rest

/-- `color_if(rows)`: one whole-row `repeatCell` request per selected row. -/
def color_if (sheet_id : ℕ) (rows : List ℕ) (rgb : ℚ × ℚ × ℚ) : List Request :=
  rows.map (fun (i : ℕ) => .repeatCellColor sheet_id (i : ℤ) ((i : ℤ) + 1) none rgb)

/-- `color_multi`: per rule (in order), color every data row whose cell
equals the rule's value; `rule["column"] / rule["equals"] / rule["color"]`
raise `KeyError` when absent, `headers.index` raises `ValueError` when the
column is unknown. -/
def color_multi (sheet_id : ℕ) (all_vals : List (List Cell))
    (headers : List String) : List Rule → Except String (List Request)
  | [] => .ok []
  | rule :: rest => do
    let col_name ← pyGet rule.column "column"
    let veq ← pyGet rule.equals "equals"
    let color ← pyGet rule.color "color"
    let rgb := COLOR_MAP (lowerStr color)
    let col_idx ← pyIndex headers col_name
    let reqs := (matchingRows col_idx veq 1 (all_vals.drop 1)).map
      (fun (i : ℕ) => Request.repeatCellColor sheet_id (i : ℤ) ((i : ℤ) + 1) none rgb)
    let rest' ← color_multi sheet_id all_vals headers rest
    .ok (reqs ++ rest')

/-- Evaluation of one `color_number_range` rule against a numeric cell
value: `rule.get("operator")` dispatch, `rule["min"] / rule["max"]` raise
`KeyError` for a `between` rule without bounds, `rule.get("value", 0)`
defaults to zero, an unrecognized operator matches nothing. -/
def ruleMatch (v : ℚ) (r : Rule) : Except String Bool :=
  if r.operator = some "between" then
    match r.min, r.max with
    | some mn, some mx => .ok (decide (mn ≤ v) && decide (v ≤ mx))
    | none, _ => .error "KeyError: min"
    | some _, none => .error "KeyError: max"
  else
    let val := r.value.getD 0
    .ok (if r.operator = some ">" then decide (v > val)
      else if r.operator = some ">=" then decide (v ≥ val)
      else if r.operator = some "<" then decide (v < val)
      else if r.operator = some "<=" then decide (v ≤ val)
      else if r.operator = some "=" then decide (v = val)
      else if r.operator = some "!=" then decide (v ≠ val)
      else false)

/-- The inner rule loop of `color_number_range` (lines 1146-1175): the
first rule whose condition holds supplies the applied color
(`rule.get("color", "yellow").lower()`) and the loop `break`s. -/
def applyRules (v : ℚ) : List Rule → Except String (Option String)
  | [] => .ok none
  | r :: rest => do
    let b ← ruleMatch v r
    if b then .ok (some (lowerStr (r.color.getD "yellow")))
    else applyRules v rest

/-- Boolean form of "this rule matches the value" (used to state the
first-match characterization via `List.find?`). -/
def ruleHit (v : ℚ) (r : Rule) : Bool :=
  match ruleMatch v r with
  | .ok b => b
  | .error _ => false

/-- The per-row request of `color_number_range`: one single-cell
`repeatCell`. -/
def cnrRequest (sheet_id : ℕ) (row_idx col_idx : ℕ) (colorName : String) : Request :=
  .repeatCellColor sheet_id (row_idx : ℤ) ((row_idx : ℤ) + 1)
    (some ((col_idx : ℤ), (col_idx : ℤ) + 1)) (COLOR_MAP colorName)

/-- The row loop of `color_number_range` (lines 1138-1201): rows whose
target cell is absent or unparseable are skipped (`continue`); for the
rest the first matching rule's color is applied. -/
def cnrLoop (sheet_id col_idx : ℕ) (rules : List Rule) :
    ℕ → List (List Cell) → Except String (List Request)
  | _, [] => .ok []
  | i, row :: rest =>
    match cellNum? row col_idx with
    | none => cnrLoop sheet_id col_idx rules (i + 1) rest
    | some v => do
      let c ← applyRules v rules
      let rest' ← cnrLoop sheet_id col_idx rules (i + 1) rest
      match c with
      | some colorName => .ok (cnrRequest sheet_id i col_idx colorName :: rest')
      | none => .ok rest'

/-- `color_number_range(headers, all_vals, column_name, rules)`. -/
def color_number_range (sheet_id : ℕ) (headers : List String)
    (all_vals : List (List Cell)) (column_name : String) (rules : List Rule) :
    Except String (List Request) :=
  if column_name ∉ headers then
    .error ("RuntimeError: Column '" ++ column_name ++ "' not found")
  else
    cnrLoop sheet_id (idxOf headers column_name) rules 1 (all_vals.drop 1)

-- -------------------------------------------------------------------
-- STRUCTURAL OPERATIONS (columns/rows/freeze/merge/copy/clear)
-- -------------------------------------------------------------------

/-- `add_column`: insert one column at `index` (`inheritFromBefore: False`). -/
def add_column (sheet_id : ℕ) (index : ℤ) : Request :=
  .insertDimension sheet_id "COLUMNS" index (index + 1) false

/-- `delete_column`. -/
def delete_column (sheet_id : ℕ) (index : ℤ) : Request :=
  .deleteDimension sheet_id "COLUMNS" index (index + 1)

/-- `add_row`: insert one row at `index` (`inheritFromBefore: True`). -/
def add_row (sheet_id : ℕ) (index : ℤ) : Request :=
  .insertDimension sheet_id "ROWS" index (index + 1) true

/-- `delete_row`. -/
def delete_row (sheet_id : ℕ) (index : ℤ) : Request :=
  .deleteDimension sheet_id "ROWS" index (index + 1)

/-- `move_column`. -/
def move_column (sheet_id : ℕ) (old_index new_index : ℤ) : Request :=
  .moveDimension sheet_id "COLUMNS" old_index (old_index + 1) new_index

/-- `move_row_dimension`. -/
def move_row_dimension (sheet_id : ℕ) (from_index to_index : ℤ) : Request :=
  .moveDimension sheet_id "ROWS" from_index (from_index + 1) to_index

/-- `unmerge_all`. -/
def unmerge_all (sheet_id : ℕ) : Request := .unmergeAll sheet_id

/-- `remove_duplicates`: one `deleteDuplicates` request comparing on the
given column. -/
def remove_duplicates (sheet_id col_index : ℕ) : Request :=
  .deleteDuplicates sheet_id col_index

/-- `freeze_panes`. -/
def freeze_panes (sheet_id : ℕ) (rows cols : ℤ) : Request :=
  .freezeReq sheet_id rows cols

/-- `merge_cells`: parse the A1 range and emit one `mergeCells` request. -/
def merge_cells (sheet_id : ℕ) (a1_range : String) (merge_type : String) :
    Except String Request := do
  let q ← a1_to_indexes a1_range
  .ok (.mergeCellsReq sheet_id q.1 q.2.1 q.2.2.1 q.2.2.2 merge_type)

/-- `clear_formatting`: one whole-sheet `repeatCell` with empty format. -/
def clear_formatting (sheet_id : ℕ) : Request := .clearFormat sheet_id

/-- `rename_column`: write the new name into the header cell. -/
def rename_column (sheet_name : String) (header_row : ℕ) (col_index : ℕ)
    (new_name : String) : Request :=
  .valuesUpdate
    (sheet_name ++ "!" ++ index_to_col_letter (col_index : ℤ) ++ toString header_row)
    [[new_name]]

/-- `fill_down_column`: copy the first data cell of the column into every
row below it.  The single-cell read of the first data row is modelled
against the invocation's data snapshot (`all_vals`). -/
def fill_down_column (sheet_name : String) (all_vals : List (List Cell))
    (col_index : ℕ) (header_row num_rows : ℕ) : List Request :=
  if num_rows ≤ header_row + 1 then []
  else
    match (all_vals.get? header_row).bind (fun r => r.get? col_index) with
    | none => []
    | some cell =>
      let col_letter := index_to_col_letter (col_index : ℤ)
      let target_start_row := header_row + 2
      if num_rows < target_start_row then []
      else
        [.valuesUpdate
          (sheet_name ++ "!" ++ col_letter ++ toString target_start_row ++ ":"
            ++ col_letter ++ toString num_rows)
          (List.replicate (num_rows + 1 - target_start_row) [cell.raw])]

/-- `add_serial_no_column`: reuse the column when the name already exists,
otherwise insert it at position 0 and write the header; then fill
`1..num_rows-header_row`. -/
def add_serial_no_column (sheet_id : ℕ) (sheet_name : String)
    (headers : List String) (header_row num_rows : ℕ) (column_name : String) :
    List Request :=
  let p : ℕ × List Request :=
    if column_name ∈ headers then (idxOf headers column_name, [])
    else
      (0, [add_column sheet_id 0,
        .valuesUpdate
          (sheet_name ++ "!" ++ index_to_col_letter 0 ++ toString header_row)
          [[column_name]]])
  if num_rows ≤ header_row then p.2
  else
    let col_letter := index_to_col_letter (p.1 : ℤ)
    p.2 ++ [.valuesUpdate
      (sheet_name ++ "!" ++ col_letter ++ toString (header_row + 1))
      ((List.range' 1 (num_rows - header_row)).map (fun i => [toString i]))]

/-- `add_column_with_serial`: insert the column, write the header, fill
serial numbers `1..num_rows-header_row`. -/
def add_column_with_serial (sheet_id : ℕ) (sheet_name : String)
    (column_name : String) (position : ℤ) (header_row num_rows : ℕ) :
    List Request :=
  let col_letter := index_to_col_letter position
  [add_column sheet_id position,
   .valuesUpdate (sheet_name ++ "!" ++ col_letter ++ toString header_row)
     [[column_name]],
   .valuesUpdate (sheet_name ++ "!" ++ col_letter ++ toString (header_row + 1))
     ((List.range' 1 (num_rows - header_row)).map (fun i => [toString i]))]

/-- `copy_column_values`: source column must exist; the target column is
reused when present, otherwise inserted right after the source; then the
source cells (read from the data snapshot) are written to the target. -/
def copy_column_values (sheet_id : ℕ) (sheet_name : String)
    (headers : List String) (from_name to_name : String)
    (header_row num_rows : ℕ) (all_vals : List (List Cell)) :
    Except String (List Request) :=
  if from_name ∉ headers then
    .error ("RuntimeError: Source column '" ++ from_name ++ "' not found")
  else
    let from_idx := idxOf headers from_name
    let p : ℕ × List Request :=
      if to_name ∈ headers then (idxOf headers to_name, [])
      else
        (from_idx + 1,
         [add_column sheet_id ((from_idx : ℤ) + 1),
          .valuesUpdate
            (sheet_name ++ "!" ++ index_to_col_letter ((from_idx : ℤ) + 1)
              ++ toString header_row)
            [[to_name]]])
    if num_rows ≤ header_row then .ok p.2
    else
      let to_letter := index_to_col_letter (p.1 : ℤ)
      let vals := ((all_vals.drop header_row).take (num_rows - header_row)).map
        (fun row => match row.get? from_idx with
          | some c => [c.raw]
          | none => ([] : List String))
      .ok (p.2 ++ [.valuesUpdate
        (sheet_name ++ "!" ++ to_letter ++ toString (header_row + 1) ++ ":"
          ++ to_letter ++ toString num_rows) vals])

/-- `copy_row_values`: read the source row (from the data snapshot) and
write it over the target row; an empty read returns without a write. -/
def copy_row_values (sheet_name : String) (all_vals : List (List Cell))
    (from_row to_row : ℤ) : List Request :=
  match (if 1 ≤ from_row then all_vals.get? (from_row - 1).toNat else none) with
  | none => []
  | some row =>
    [.valuesUpdate (sheet_name ++ "!" ++ Int.repr to_row ++ ":" ++ Int.repr to_row)
      [row.map (·.raw)]]

-- -------------------------------------------------------------------
-- ENVIRONMENT (the external spreadsheet service and the LLM oracle)
-- -------------------------------------------------------------------

/-- `sheet["properties"]["gridProperties"]` (the one field `execute`
reads; `none` models an absent `columnCount`, defaulted to 26). -/
structure GridProps where
  columnCount : Option ℕ := none
deriving DecidableEq

/-- One sheet of the spreadsheet metadata. -/
structure SheetInfo where
  title : String
  sheetId : ℕ
  grid : GridProps := {}
deriving DecidableEq

/-- The external world of one invocation: the spreadsheet metadata, the
service's responses to the header-row read and the whole-sheet read, the
oracle's raw completion text, and the outcomes of the (at most two)
`deleteDuplicates` calls — `some e` means the service raises `HttpError`
with message `e`, `none` means it succeeds. -/
structure Env where
  sheets : List SheetInfo := []
  header_vals : List (List String) := []
  all_vals : List (List Cell) := []
  oracle_raw : String := ""
  dup_http_error1 : Option String := none
  dup_http_error2 : Option String := none

/-- `get_sheet_id_by_name(metadata, sheet_name)`: first sheet whose title
matches. -/
def get_sheet_id_by_name (sheets : List SheetInfo) (sheet_name : String) :
    Option ℕ :=
  (sheets.find? (fun s => s.title == sheet_name)).map (·.sheetId)

-- -------------------------------------------------------------------
-- PARSER BOUNDARY (source: parse_instruction_llm, lines 210-355)
-- -------------------------------------------------------------------

/-- Outcome of `parse_instruction_llm`: either a decoded instruction dict
or the `{"_raw": raw, "_error": str(e)}` dict it returns when
`json.loads` raises. -/
inductive ParseOutcome where
  | parsed (inst : Instruction)
  | parseErr (raw err : String)
deriving DecidableEq

/-- The defensive code-fence stripping of `parse_instruction_llm`:
`raw.replace("```json", "").replace("```", "").strip()`. -/
def stripRaw (raw0 : String) : String :=
  ⟨pyStrip (replaceAll (replaceAll raw0.data "```json".data []) "```".data [])⟩

/-- `parse_instruction_llm` after the oracle call: strip the fencing,
then decode.  `decode` stands for `json.loads` plus the reading of the
resulting dict (the stdlib JSON parser is an external collaborator); it
returns `.error (str(e))` exactly when `json.loads` raises. -/
def parse_instruction_llm (decode : String → Except String Instruction)
    (raw0 : String) : ParseOutcome :=
  match decode (stripRaw raw0) with
  | .ok i => .parsed i
  | .error e => .parseErr (stripRaw raw0) e

-- -------------------------------------------------------------------
-- EXECUTE (source: SheetsAIAgent.execute, lines 1234-1853)
-- -------------------------------------------------------------------

/-- The result dictionary `execute` returns.  `requests` collects the
mutation requests issued on the path (the opaque `response` echoes);
result-echo fields other than `status` / `message` / `details` /
`action` / `deleted_count` are not modelled. -/
structure ExecResult where
  status : String
  message : Option String := none
  details : Option (String × String) := none
  action : Option String := none
  deleted_count : Option ℕ := none
  requests : List Request := []
deriving DecidableEq

/-- The metadata/header prologue of `execute` (lines 1244-1293): resolve
the sheet id, read the grid properties (both raise `RuntimeError` when the
sheet is unknown), compute the header A1 range bound, and read the header
row (raising `RuntimeError` when the read is empty).  The second,
identical metadata fetch of the source is this same computation repeated
and is not duplicated. -/
def execPrep (env : Env) (sheet_name : String) : Except String (ℕ × List String) := do
  let sheet_id ← match get_sheet_id_by_name env.sheets sheet_name with
    | some i => Except.ok i
    | none => Except.error ("RuntimeError: Sheet '" ++ sheet_name ++ "' not found")
  let props ← match env.sheets.find? (fun s => s.title == sheet_name) with
    | some s => Except.ok s.grid
    | none => Except.error "RuntimeError: Failed to read sheet properties"
  let col_count := props.columnCount.getD 26
  let _last_col_letter := index_to_column_letter ((col_count : ℤ) - 1)
  match env.header_vals with
  | [] => Except.error "RuntimeError: Could not read header row"
  | headers :: _ => Except.ok (sheet_id, headers)

/-- The per-spec loop of the `multicolumn_sort` branch:
`headers.index(s["column"])` with `s.get("ascending", True)`. -/
def specIdxs (headers : List String) : List SortSpec → Except String (List (ℕ × Bool))
  | [] => .ok []
  | sp :: rest => do
    let c ← pyGet sp.column "column"
    let i ← pyIndex headers c
    let r ← specIdxs headers rest
    .ok ((i, sp.ascending.getD true) :: r)

/-- The `[s["column"] for s in instruction["sort"]]` comprehension of the
`multicolumn_sort` result dict. -/
def specNames : List SortSpec → Except String (List String)
  | [] => .ok []
  | sp :: rest => do
    let c ← pyGet sp.column "column"
    let r ← specNames rest
    .ok (c :: r)

/-- `f"Unknown action: {action}"` (Python prints `None` for a missing
discriminant). -/
def actionName : Option String → String
  | some a => a
  | none => "None"

/-- The action discriminants `execute` dispatches on, in source order. -/
def knownActions : List String :=
  ["sort", "multicolumn_sort", "filter", "delete_rows", "remove_duplicates",
   "formula", "color_row", "color_column", "color_range", "color_if",
   "color_multi", "add_column", "delete_column", "add_row", "delete_row",
   "move_column", "rename_column", "fill_down", "add_serial_no", "freeze",
   "merge_cells", "copy_column", "copy_row", "move_row", "clear_formatting",
   "color_number_range", "add_column_with_serial"]

/-- The dispatcher: the `if action == ... / elif ... / else` chain of
`execute` (lines 1313-1853), one branch per action kind.  `env.all_vals`
is the whole-sheet read (`get_sheet_values(..., sheet_name)`) that
`execute` performs before dispatching. -/
def dispatch (env : Env) (sheet_id : ℕ) (sheet_name : String)
    (headers : List String) (inst : Instruction) (header_row : ℕ) :
    Except String ExecResult :=
  let all_vals := env.all_vals
  let num_rows := all_vals.length
  let num_cols := headers.length
  if inst.action = some "sort" then do
    let col_name ← pyGet inst.column "column"
    let col_idx ← pyIndex headers col_name
    let ascending := inst.ascending.getD true
    Except.ok { status := "success", action := some "sort",
                requests := [apply_sort sheet_id col_idx header_row num_rows num_cols ascending] }
  else if inst.action = some "multicolumn_sort" then do
    let specs ← specIdxs headers (inst.sort.getD [])
    let sortList ← pyGet inst.sort "sort"
    let _names ← specNames sortList
    Except.ok { status := "success", action := some "multicolumn_sort",
                requests := [apply_multi_sort sheet_id specs header_row num_rows num_cols] }
  else if inst.action = some "filter" then do
    let col ← pyGet inst.column "column"
    let col_idx ← pyIndex headers col
    let op ← pyGet inst.operator "operator"
    let v ← pyGet inst.value "value"
    Except.ok { status := "success", action := some "filter",
                requests := [apply_filter sheet_id col_idx op v] }
  else if inst.action = some "delete_rows" then do
    let col_name ← pyGet inst.column "column"
    let col_idx ← pyIndex headers col_name
    let op ← pyGet inst.operator "operator"
    let val ← pyGet inst.value "value"
    let delete_indices := delete_rows_indices col_idx op val 1 (all_vals.drop 1)
    Except.ok { status := "success", action := some "delete_rows",
                deleted_count := some delete_indices.length,
                requests := if delete_indices = [] then []
                  else delete_rows_batch sheet_id delete_indices }
  else if inst.action = some "remove_duplicates" then do
    let col ← pyGet inst.column "column"
    let col_idx ← pyIndex headers col
    match env.dup_http_error1 with
    | none =>
      Except.ok { status := "success", action := some "remove_duplicates",
                  requests := [remove_duplicates sheet_id col_idx] }
    | some e =>
      if strContains e "merged cell" then
        match env.dup_http_error2 with
        | none =>
          Except.ok { status := "success", action := some "remove_duplicates",
                      requests := [unmerge_all sheet_id, remove_duplicates sheet_id col_idx] }
        | some e2 => Except.error e2
      else Except.error e
  else if inst.action = some "formula" then do
    let p ← match inst.auto_new_column with
      | some new_index => do
        let t ← pyGet inst.target_column "target_column"
        Except.ok (headers ++ [t],
          [add_column sheet_id (new_index : ℤ),
           Request.valuesUpdate
             (sheet_name ++ "!" ++ index_to_col_letter (new_index : ℤ)
               ++ toString header_row) [[t]]])
      | none => Except.ok (headers, [])
    let target_col ← pyGet inst.target_column "target_column"
    let formula ← pyGet inst.formula "formula"
    let col_idx ← pyIndex p.1 target_col
    let wreq := Request.valuesUpdate
      (sheet_name ++ "!" ++ index_to_col_letter (col_idx : ℤ)
        ++ toString (header_row + 1)) [[formula]]
    Except.ok { status := "success", action := some "formula",
                requests := p.2 ++ [wreq]
                  ++ fill_down_column sheet_name all_vals col_idx header_row num_rows }
  else if inst.action = some "color_row" then do
    let row ← pyGet inst.row "row"
    let color ← pyGet inst.color "color"
    let req ← color_row sheet_id row (COLOR_MAP (lowerStr color))
    Except.ok { status := "success", action := some "color_row", requests := [req] }
  else if inst.action = some "color_column" then do
    let col ← pyGet inst.column "column"
    let color ← pyGet inst.color "color"
    let req ← color_column sheet_id col (COLOR_MAP (lowerStr color))
    Except.ok { status := "success", action := some "color_column", requests := [req] }
  else if inst.action = some "color_range" then do
    let a1 ← pyGet inst.range "range"
    let color ← pyGet inst.color "color"
    let req ← color_range sheet_id a1 (COLOR_MAP (lowerStr color))
    Except.ok { status := "success", action := some "color_range", requests := [req] }
  else if inst.action = some "color_if" then do
    let target_col ← pyGet inst.column "column"
    let v ← pyGet inst.equals "equals"
    let color ← pyGet inst.color "color"
    let col_idx ← pyIndex headers target_col
    let matching := matchingRows col_idx v 1 (all_vals.drop 1)
    Except.ok { status := "success", action := some "color_if",
                requests := color_if sheet_id matching (COLOR_MAP (lowerStr color)) }
  else if inst.action = some "color_multi" then do
    let rules ← pyGet inst.rules "rules"
    let reqs ← color_multi sheet_id all_vals headers rules
    Except.ok { status := "success", action := some "color_multi", requests := reqs }
  else if inst.action = some "add_column" then do
    let col_name ← pyGet inst.column_name "column_name"
    let pos ← pyGet inst.position "position"
    Except.ok { status := "success", action := some "add_column",
                requests := [add_column sheet_id pos,
                Request.valuesUpdate
                (sheet_name ++ "!" ++ index_to_col_letter pos ++ toString header_row)
                [[col_name]]] }
  else if inst.action = some "delete_column" then do
    let col_name ← pyGet inst.column "column"
    let index ← pyIndex headers col_name
    Except.ok { status := "success", action := some "delete_column",
                requests := [delete_column sheet_id (index : ℤ)] }
  else if inst.action = some "add_row" then do
    let pos ← pyGet inst.position "position"
    Except.ok { status := "success", action := some "add_row",
                requests := [add_row sheet_id pos] }
  else if inst.action = some "delete_row" then do
    let row ← pyGet inst.row "row"
    Except.ok { status := "success", action := some "delete_row",
                requests := [delete_row sheet_id row] }
  else if inst.action = some "move_column" then do
    let col_name ← pyGet inst.column "column"
    let old_index ← pyIndex headers col_name
    let new_index ← pyGet inst.new_position "new_position"
    Except.ok { status := "success", action := some "move_column",
                requests := [move_column sheet_id (old_index : ℤ) new_index] }
  else if inst.action = some "rename_column" then do
    let old_name ← pyGet inst.old_name "old_name"
    let new_name ← pyGet inst.new_name "new_name"
    let col_idx ← pyIndex headers old_name
    Except.ok { status := "success", action := some "rename_column",
                requests := [rename_column sheet_name header_row col_idx new_name] }
  else if inst.action = some "fill_down" then do
    let col_name ← pyGet inst.column "column"
    let col_idx ← pyIndex headers col_name
    Except.ok { status := "success", action := some "fill_down",
                requests := fill_down_column sheet_name all_vals col_idx header_row num_rows }
  else if inst.action = some "add_serial_no" then
    let col_name := inst.column_name.getD "Serial No"
    Except.ok { status := "success", action := some "add_serial_no",
                requests := add_serial_no_column sheet_id sheet_name headers header_row
                  num_rows col_name }
  else if inst.action = some "freeze" then
    let rows := inst.rows.getD 1
    let cols := inst.cols.getD 0
    Except.ok { status := "success", action := some "freeze",
                requests := [freeze_panes sheet_id rows cols] }
  else if inst.action = some "merge_cells" then do
    let a1 ← pyGet inst.range "range"
    let merge_type := inst.merge_type.getD "MERGE_ALL"
    let req ← merge_cells sheet_id a1 merge_type
    Except.ok { status := "success", action := some "merge_cells", requests := [req] }
  else if inst.action = some "copy_column" then do
    let from_name ← pyGet inst.fromCol "from"
    let to_name ← pyGet inst.toCol "to"
    let reqs ← copy_column_values sheet_id sheet_name headers from_name to_name
      header_row num_rows all_vals
    Except.ok { status := "success", action := some "copy_column", requests := reqs }
  else if inst.action = some "copy_row" then do
    let from_row ← pyGet inst.from_row "from_row"
    let to_row ← pyGet inst.to_row "to_row"
    Except.ok { status := "success", action := some "copy_row",
                requests := copy_row_values sheet_name all_vals from_row to_row }
  else if inst.action = some "move_row" then do
    let from_row ← pyGet inst.from_row "from_row"
    let to_row ← pyGet inst.to_row "to_row"
    Except.ok { status := "success", action := some "move_row",
                requests := [move_row_dimension sheet_id from_row to_row] }
  else if inst.action = some "clear_formatting" then
    Except.ok { status := "success", action := some "clear_formatting",
                requests := [unmerge_all sheet_id, clear_formatting sheet_id] }
  else if inst.action = some "color_number_range" then do
    let col_name ← pyGet inst.column "column"
    let rules := inst.rules.getD []
    let reqs ← color_number_range sheet_id headers all_vals col_name rules
    Except.ok { status := "success", action := some "color_number_range",
                requests := reqs }
  else if inst.action = some "add_column_with_serial" then do
    let col_name ← pyGet inst.column_name "column_name"
    let pos ← pyGet inst.position "position"
    Except.ok { status := "success", action := some "add_column_with_serial",
                requests := add_column_with_serial sheet_id sheet_name col_name pos
                  header_row num_rows }
  else
    Except.ok { status := "error",
                message := some ("Unknown action: " ++ actionName inst.action) }

/-- `SheetsAIAgent.execute(spreadsheet_id, sheet_name, user_prompt,
header_row=1)`: metadata/header prologue, oracle parse (returning the
structured parse-failure result when decoding fails), grounding, then
dispatch.  `.error e` models a Python exception with message `e`
escaping `execute`.  The opaque `spreadsheet_id` and `user_prompt`
parameters flow only into the external service and oracle calls and are
subsumed by the environment (the oracle's reply is `env.oracle_raw`). -/
def execute (score : String → String → ℚ)
    (decode : String → Except String Instruction) (env : Env)
    (sheet_name : String) (header_row : ℕ) : Except String ExecResult := do
  let p ← execPrep env sheet_name
  match parse_instruction_llm decode env.oracle_raw with
  | .parseErr raw e =>
    Except.ok { status := "error", message := some "Failed to parse instruction",
                details := some (raw, e) }
  | .parsed inst0 => do
    let inst ← ground_columns score inst0 p.2
    dispatch env p.1 sheet_name p.2 inst header_row

-- -------------------------------------------------------------------
-- VALUES USED BY CONCRETE WITNESSES
-- -------------------------------------------------------------------

/-- The rational 9.5 as an explicitly normalized `Rat` (the decimal
literal elaborates through the irreducible `Rat.ofScientific`, which the
kernel cannot evaluate; this form evaluates). -/
def q95 : ℚ := Rat.mk' 19 2 (by decide) (by decide)

-- -------------------------------------------------------------------
-- C5 / C8: NUMERIC ROW FILTERS AND FIRST-MATCH COLOR RULES
-- -------------------------------------------------------------------

/-- A rule whose evaluation cannot raise: a `between` rule carries both
bounds (any other operator never consults `min`/`max`). -/
def ruleWf (r : Rule) : Prop :=
  r.operator = some "between" → r.min.isSome ∧ r.max.isSome

/-- The color `color_number_range` applies for a numeric value: that of
the first rule (in list order) whose condition the value satisfies. -/
def cnrColor (v : ℚ) (rules : List Rule) : Option String :=
  (rules.find? (ruleHit v)).map (fun r => lowerStr (r.color.getD "yellow"))

/-- The `>`-rule and `between`-rule of the C5 example. -/
def gtNineGreen : Rule := { operator := some ">", value := some 9, color := some "green" }

/-- The second rule of the C5 example. -/
def betweenEightNineYellow : Rule :=
  { operator := some "between", min := some 8, max := some 9, color := some "yellow" }

/-- The instruction of the C6 counterexample: a formula action whose
target column is blank. -/
def groundCexInst : Instruction := { action := some "formula", target_column := some "" }

/-- `groundCexInst` after one grounding pass against `["A"]`. -/
def groundCexInst1 : Instruction :=
  { action := some "formula", target_column := some "Column_2", auto_new_column := some 1 }

/-- `groundCexInst1` after a second grounding pass against `["A"]`. -/
def groundCexInst2 : Instruction :=
  { action := some "formula", target_column := some "A", auto_new_column := some 1 }

/-- The non-reference (structural) fields of a rule dict. -/
def ruleShape (r : Rule) :
    Option String × Option String × Option ℚ × Option ℚ × Option ℚ × Option String :=
  (r.equals, r.operator, r.value, r.min, r.max, r.color)

-- -------------------------------------------------------------------
-- C1 / C7: THE END-TO-END ERROR CONTRACT OF `execute`
-- -------------------------------------------------------------------

/-- A decoder stub for witnesses: rejects every input, the way
`json.loads` rejects prose. -/
def proseDecode : String → Except String Instruction :=
  fun _ => .error "Expecting value: line 1 column 1 (char 0)"

/-- A decoder stub for witnesses: decodes every input to an action with
an unrecognized discriminant. -/
def unknownDecode : String → Except String Instruction :=
  fun _ => .ok { action := some "dance" }

/-- A well-formed one-sheet environment whose oracle replied with prose. -/
def proseEnv : Env :=
  { sheets := [⟨"Sheet1", 0, {}⟩], header_vals := [["Roll No", "Name", "CGPA"]],
    oracle_raw := "Sure! Here's your answer: sort by CGPA" }

/-- A well-formed one-sheet environment. -/
def unknownEnv : Env :=
  { sheets := [⟨"Sheet1", 0, {}⟩], header_vals := [["A"]] }

/-- The message of the `AttributeError` that `a1_to_indexes` raises when
an endpoint does not match the cell regex. -/
def a1MatchErr : String := "AttributeError: NoneType object has no attribute groups"

/-- A decoder stub for witnesses: decodes every input to a
`remove_duplicates` action on column `A`. -/
def dupDecode : String → Except String Instruction :=
  fun _ => .ok { action := some "remove_duplicates", column := some "A" }

/-- An environment whose first `deleteDuplicates` call fails with a
service error unrelated to merged cells. -/
def dupEnvBad : Env :=
  { sheets := [⟨"Sheet1", 0, {}⟩], header_vals := [["A"]],
    dup_http_error1 := some "HttpError 400: bad request" }

/-- An environment whose first `deleteDuplicates` call fails with a
merged-cell conflict and whose retry (after `unmergeCells`) succeeds. -/
def dupEnvMerged : Env :=
  { sheets := [⟨"Sheet1", 0, {}⟩], header_vals := [["A"]],
    dup_http_error1 := some "HttpError 400: operation not supported over merged cells" }

-- -------------------------------------------------------------------
-- THEOREMS
-- -------------------------------------------------------------------

theorem extractOne_ne_none (score : String → String → ℚ) (target : String)
    (l : List String) (h : l ≠ []) : ∃ m, extractOne score target l = some m := by
  cases l with
  | nil => exact absurd rfl h
  | cons c rest =>
    cases hrec : extractOne score target rest with
    | none => exact ⟨(c, score target c), by simp [extractOne, hrec]⟩
    | some m =>
      by_cases hgt : m.2 > score target c
      · exact ⟨m, by simp [extractOne, hrec, hgt]⟩
      · exact ⟨(c, score target c), by simp [extractOne, hrec, hgt]⟩

theorem extractOne_none (score : String → String → ℚ) (target : String)
    (l : List String) (h : extractOne score target l = none) : l = [] := by
  cases l with
  | nil => rfl
  | cons c rest =>
    exfalso
    obtain ⟨m, hm⟩ := extractOne_ne_none score target (c :: rest) (by simp)
    rw [hm] at h
    exact Option.noConfusion h

theorem extractOne_spec (score : String → String → ℚ) (target : String)
    (l : List String) (b : String) (s : ℚ)
    (h : extractOne score target l = some (b, s)) :
    b ∈ l ∧ s = score target b ∧ ∀ x ∈ l, score target x ≤ s := by
  induction l generalizing b s with
  | nil => simp [extractOne] at h
  | cons c rest ih =>
    cases hrec : extractOne score target rest with
    | none =>
      have hre : rest = [] := extractOne_none score target rest hrec
      subst hre
      simp [extractOne] at h
      obtain ⟨hb, hs⟩ := h
      subst hb; subst hs
      simp
    | some m =>
      obtain ⟨b', s'⟩ := m
      obtain ⟨hmem, hsc, hmax⟩ := ih b' s' hrec
      by_cases hgt : s' > score target c
      · simp [extractOne, hrec, hgt] at h
        obtain ⟨hb, hs⟩ := h
        subst hb; subst hs
        refine ⟨List.mem_cons.mpr (Or.inr hmem), hsc, ?_⟩
        intro x hx
        rcases List.mem_cons.mp hx with hx | hx
        · subst hx; exact le_of_lt hgt
        · exact hmax x hx
      · simp [extractOne, hrec, hgt] at h
        obtain ⟨hb, hs⟩ := h
        subst hb; subst hs
        refine ⟨List.mem_cons.mpr (Or.inl rfl), rfl, ?_⟩
        intro x hx
        rcases List.mem_cons.mp hx with hx | hx
        · subst hx; exact le_rfl
        · exact le_trans (hmax x hx) (not_lt.mp hgt)

theorem fuzzy_match_column_mem (score : String → String → ℚ) (target : String)
    (columns : List String) (threshold : ℚ) (m : String)
    (h : fuzzy_match_column score target columns threshold = .ok m) : m ∈ columns := by
  by_cases hne : columns = []
  · subst hne; simp [fuzzy_match_column] at h
  · unfold fuzzy_match_column at h
    rw [if_neg hne] at h
    cases hex : extractOne score target columns with
    | none => exact absurd (extractOne_none score target columns hex) hne
    | some p =>
      obtain ⟨b, s⟩ := p
      obtain ⟨hbmem, _, _⟩ := extractOne_spec score target columns b s hex
      rw [hex] at h
      by_cases hth : s ≥ threshold
      · simp [hth] at h; subst h; exact hbmem
      · simp [hth] at h
        cases hf : columns.find? (substPred target) with
        | none => rw [hf] at h; simp at h; subst h; exact hbmem
        | some c =>
          rw [hf] at h; simp at h; subst h
          exact List.mem_of_find?_eq_some hf

theorem q95_eq : (9.5 : ℚ) = q95 := by
  rw [show (9.5 : ℚ) = Rat.ofScientific 95 true 1 from rfl, Rat.ofScientific_true_def]
  rw [q95, Rat.mk'_eq_divInt, Rat.mkRat_eq_divInt]
  rw [Rat.divInt_eq_divInt (by norm_num) (by norm_num)]
  norm_num

-- -------------------------------------------------------------------
-- C2 / C3: THE APPROXIMATE REFERENCE RESOLVER
-- -------------------------------------------------------------------

/-- C2: for every non-empty candidate list and every target string,
`fuzzy_match_column` returns an element of the candidate list and never
fails; for an empty candidate list it fails with an error. -/
theorem fuzzy_resolver_total (score : String → String → ℚ) (target : String)
    (columns : List String) (threshold : ℚ) :
    (columns ≠ [] → ∃ m, fuzzy_match_column score target columns threshold = .ok m ∧
      m ∈ columns) ∧
    (columns = [] →
      fuzzy_match_column score target columns threshold = .error "No columns provided") := by
  constructor
  · intro hne
    have hok : ∃ m, fuzzy_match_column score target columns threshold = .ok m := by
      unfold fuzzy_match_column
      rw [if_neg hne]
      obtain ⟨⟨b, s⟩, hex⟩ := extractOne_ne_none score target columns hne
      rw [hex]
      by_cases hth : s ≥ threshold
      · exact ⟨b, by simp [hth]⟩
      · cases hf : columns.find? (substPred target) with
        | some c => exact ⟨c, by simp [hth, hf]⟩
        | none => exact ⟨b, by simp [hth, hf]⟩
    obtain ⟨m, hm⟩ := hok
    exact ⟨m, hm, fuzzy_match_column_mem score target columns threshold m hm⟩
  · intro he; subst he; simp [fuzzy_match_column]

/-- Witness for C2 at concrete inputs. -/
theorem fuzzy_resolver_total_witness :
    (∃ m, fuzzy_match_column zeroScore "cgpa" ["Roll No", "Name", "CGPA"] 60 = .ok m ∧
      m ∈ ["Roll No", "Name", "CGPA"]) ∧
    fuzzy_match_column zeroScore "cgpa" [] 60 = .error "No columns provided" :=
  ⟨(fuzzy_resolver_total zeroScore "cgpa" ["Roll No", "Name", "CGPA"] 60).1 (by decide),
   (fuzzy_resolver_total zeroScore "cgpa" [] 60).2 rfl⟩

/-- C3: on a non-empty candidate list the resolver follows the
three-tier policy in order: the best-scoring candidate (scanned first to
last, strictly-better replaces) is returned when its score reaches the
threshold; otherwise the first candidate related to the target by
case-insensitive substring containment in either direction; otherwise
the best-scoring candidate regardless of score. -/
theorem fuzzy_resolver_three_tier (score : String → String → ℚ) (target : String)
    (columns : List String) (threshold : ℚ) (hne : columns ≠ []) :
    ∃ b s, extractOne score target columns = some (b, s) ∧
      b ∈ columns ∧ s = score target b ∧ (∀ c ∈ columns, score target c ≤ s) ∧
      (s ≥ threshold → fuzzy_match_column score target columns threshold = .ok b) ∧
      (s < threshold → ∀ c, columns.find? (substPred target) = some c →
        fuzzy_match_column score target columns threshold = .ok c) ∧
      (s < threshold → columns.find? (substPred target) = none →
        fuzzy_match_column score target columns threshold = .ok b) := by
  obtain ⟨⟨b, s⟩, hex⟩ := extractOne_ne_none score target columns hne
  obtain ⟨hmem, hsc, hmax⟩ := extractOne_spec score target columns b s hex
  refine ⟨b, s, hex, hmem, hsc, hmax, ?_, ?_, ?_⟩
  · intro hth
    unfold fuzzy_match_column
    rw [if_neg hne, hex]
    simp [hth]
  · intro hth c hf
    unfold fuzzy_match_column
    rw [if_neg hne, hex]
    simp [not_le.mpr hth, hf]
  · intro hth hf
    unfold fuzzy_match_column
    rw [if_neg hne, hex]
    simp [not_le.mpr hth, hf]

/-- Witness for C3: with a below-threshold best score, the substring tier
resolves `"cgpa"` to `"CGPA"`. -/
theorem fuzzy_resolver_three_tier_witness :
    fuzzy_match_column zeroScore "cgpa" ["Roll No", "Name", "CGPA"] 60 = .ok "CGPA" := by
  obtain ⟨b, s, hex, _, _, _, _, hmid, _⟩ :=
    fuzzy_resolver_three_tier zeroScore "cgpa" ["Roll No", "Name", "CGPA"] 60 (by decide)
  have hex2 : extractOne zeroScore "cgpa" ["Roll No", "Name", "CGPA"] =
      some ("Roll No", 0) := by decide
  rw [hex2] at hex
  injection hex with h
  injection h with h1 h2
  subst h2
  exact hmid (by norm_num) "CGPA" (by decide)

-- -------------------------------------------------------------------
-- C4: ROW DELETION ORDERING
-- -------------------------------------------------------------------

/-- C4 counterexample: a list with a duplicate index produces two equal
deletion requests, whose start indices are not strictly descending. -/
theorem delete_rows_batch_duplicate_cex :
    delete_rows_batch 0 [3, 3] =
      [.deleteDimension 0 "ROWS" 3 4, .deleteDimension 0 "ROWS" 3 4] ∧
    ¬ List.Pairwise (fun a b => a > b) [(3 : ℕ), 3] := by decide

/-- C4 (amended): `delete_rows_batch` emits one deletion request per
index occurrence of the input list, ordered descending (non-increasing;
strictly descending whenever the input indices are distinct); in
particular `[2, 5, 1]` produces requests ordered `[5, 2, 1]`. -/
theorem delete_rows_batch_desc (sheet_id : ℕ) (l : List ℕ) :
    delete_rows_batch sheet_id l = (sortedDesc l).map
      (fun idx => .deleteDimension sheet_id "ROWS" (idx : ℤ) ((idx : ℤ) + 1)) ∧
    (sortedDesc l).Perm l ∧
    List.Sorted (· ≥ ·) (sortedDesc l) ∧
    (l.Nodup → List.Pairwise (fun a b => a > b) (sortedDesc l)) ∧
    delete_rows_batch 0 [2, 5, 1] =
      [.deleteDimension 0 "ROWS" 5 6, .deleteDimension 0 "ROWS" 2 3,
       .deleteDimension 0 "ROWS" 1 2] := by
  have hperm : (sortedDesc l).Perm l :=
    (List.reverse_perm _).trans (List.perm_insertionSort _ l)
  have hsorted0 : List.Pairwise (fun a b : ℕ => a ≤ b) (List.insertionSort (· ≤ ·) l) :=
    List.sorted_insertionSort (· ≤ ·) l
  have hsorted : List.Pairwise (fun a b : ℕ => a ≥ b) (sortedDesc l) :=
    List.pairwise_reverse.mpr hsorted0
  refine ⟨rfl, hperm, hsorted, ?_, by decide⟩
  intro hnd
  have hnd' : (sortedDesc l).Nodup := (hperm.symm).nodup hnd
  exact (hsorted.and hnd').imp (fun hab => lt_of_le_of_ne hab.1 (Ne.symm hab.2))

/-- Witness for C4's amended claim at `[2, 5, 1]`. -/
theorem delete_rows_batch_desc_witness :
    List.Pairwise (fun a b => a > b) (sortedDesc [2, 5, 1]) ∧
    delete_rows_batch 0 [2, 5, 1] =
      [.deleteDimension 0 "ROWS" 5 6, .deleteDimension 0 "ROWS" 2 3,
       .deleteDimension 0 "ROWS" 1 2] :=
  ⟨(delete_rows_batch_desc 0 [2, 5, 1]).2.2.2.1 (by decide),
   (delete_rows_batch_desc 7 [2, 5, 1]).2.2.2.2⟩

theorem ok_bind {ε α β : Type} (a : α) (f : α → Except ε β) :
    (Except.ok a >>= f) = f a := rfl

theorem error_bind {ε α β : Type} (e : ε) (f : α → Except ε β) :
    ((Except.error e : Except ε α) >>= f) = Except.error e := rfl

theorem ruleMatch_isOk (v : ℚ) (r : Rule) (h : ruleWf r) :
    (ruleMatch v r).isOk = true := by
  unfold ruleMatch
  by_cases hb : r.operator = some "between"
  · obtain ⟨hmn, hmx⟩ := h hb
    obtain ⟨mn, hmn⟩ := Option.isSome_iff_exists.mp hmn
    obtain ⟨mx, hmx⟩ := Option.isSome_iff_exists.mp hmx
    simp [hb, hmn, hmx, Except.isOk, Except.toBool]
  · simp [hb, Except.isOk, Except.toBool]

theorem applyRules_eq_find (v : ℚ) (rules : List Rule)
    (h : ∀ r ∈ rules, (ruleMatch v r).isOk = true) :
    applyRules v rules = .ok (cnrColor v rules) := by
  induction rules with
  | nil => simp [applyRules, cnrColor]
  | cons r rest ih =>
    have hr := h r (by simp)
    cases hm : ruleMatch v r with
    | error e => rw [hm] at hr; simp [Except.isOk, Except.toBool] at hr
    | ok b =>
      have hhit : ruleHit v r = b := by simp [ruleHit, hm]
      cases b with
      | true =>
        simp [applyRules, hm, cnrColor, List.find?, hhit, ok_bind]
      | false =>
        have ihr := ih (fun r hr => h r (by simp [hr]))
        simp [applyRules, hm, cnrColor, List.find?, hhit, ok_bind] at ihr ⊢
        exact ihr

/-- C5: per row, `color_number_range` applies the color of the first rule
(in caller-supplied order) whose condition the row's numeric value
satisfies and no later rule; with rules `[>9 green, between 8 9 yellow]`
and cell value 9.5 the applied color is green, and on a one-data-row
sheet the emitted request is the green one. -/
theorem color_number_range_first_match :
    (∀ (v : ℚ) (rules : List Rule), (∀ r ∈ rules, (ruleMatch v r).isOk = true) →
      applyRules v rules = .ok (cnrColor v rules)) ∧
    applyRules q95 [gtNineGreen, betweenEightNineYellow] = .ok (some "green") ∧
    color_number_range 4 ["CGPA"] [[⟨"CGPA", none⟩], [⟨"9.5", some q95⟩]] "CGPA"
        [gtNineGreen, betweenEightNineYellow] =
      .ok [.repeatCellColor 4 1 2 (some (0, 1)) (0, 1, 0)] ∧
    (9.5 : ℚ) = q95 :=
  ⟨applyRules_eq_find, by decide, by decide, q95_eq⟩

/-- Witness for C5's general first-match characterization at the claim's
concrete rules and value. -/
theorem color_number_range_first_match_witness :
    applyRules q95 [gtNineGreen, betweenEightNineYellow] =
      .ok (cnrColor q95 [gtNineGreen, betweenEightNineYellow]) :=
  color_number_range_first_match.1 q95 [gtNineGreen, betweenEightNineYellow] (by decide)

theorem delete_rows_indices_eq (col : ℕ) (op : String) (val : ℚ) (i : ℕ)
    (rows : List (List Cell)) :
    delete_rows_indices col op val i rows =
      ((idxFrom i rows).filter (fun p => rowPasses col op val p.2)).map (·.1) := by
  induction rows generalizing i with
  | nil => simp [delete_rows_indices, idxFrom]
  | cons row rest ih =>
    by_cases hp : rowPasses col op val row
    · simp [delete_rows_indices, idxFrom, hp, ih]
    · simp [delete_rows_indices, idxFrom, hp, ih]

theorem cnrLoop_eq (sid col : ℕ) (rules : List Rule)
    (hwf : ∀ r ∈ rules, ruleWf r) (i : ℕ) (rows : List (List Cell)) :
    cnrLoop sid col rules i rows = .ok ((idxFrom i rows).filterMap
      (fun p => match cellNum? p.2 col with
        | none => none
        | some v => (cnrColor v rules).map (cnrRequest sid p.1 col))) := by
  induction rows generalizing i with
  | nil => simp [cnrLoop, idxFrom]
  | cons row rest ih =>
    cases hc : cellNum? row col with
    | none => simp [cnrLoop, idxFrom, hc, ih]
    | some v =>
      have hap : applyRules v rules = .ok (cnrColor v rules) :=
        applyRules_eq_find v rules (fun r hr => ruleMatch_isOk v r (hwf r hr))
      cases hcol : cnrColor v rules with
      | none => simp [cnrLoop, idxFrom, hc, hap, hcol, ih, ok_bind]
      | some cname => simp [cnrLoop, idxFrom, hc, hap, hcol, ih, ok_bind]

/-- C8: the numeric row filters process rows independently: the deletion
scan equals a per-row filter of the enumerated rows, a row whose target
cell is absent or non-numeric never passes the filter, the
`color_number_range` scan equals a per-row `filterMap` in which such a
row contributes nothing (given rules that can be evaluated), and a parse
failure on one row leaves the remaining rows processed (the concrete run
has an unparseable first row and still deletes the second). -/
theorem numeric_row_filters_skip :
    (∀ col op val i rows, delete_rows_indices col op val i rows =
      ((idxFrom i rows).filter (fun p => rowPasses col op val p.2)).map (·.1)) ∧
    (∀ col op val row, cellNum? row col = none → rowPasses col op val row = false) ∧
    (∀ sid col rules, (∀ r ∈ rules, ruleWf r) → ∀ i rows,
      cnrLoop sid col rules i rows = .ok ((idxFrom i rows).filterMap
        (fun p => match cellNum? p.2 col with
          | none => none
          | some v => (cnrColor v rules).map (cnrRequest sid p.1 col)))) ∧
    delete_rows_indices 0 "<" 5 1 [[⟨"x", none⟩], [⟨"3", some 3⟩]] = [2] := by
  refine ⟨delete_rows_indices_eq, ?_, ?_, by decide⟩
  · intro col op val row h
    simp [rowPasses, h]
  · intro sid col rules hwf i rows
    exact cnrLoop_eq sid col rules hwf i rows

/-- Witness for C8 at concrete inputs: an unparseable cell in the first
data row is skipped by both filters and does not abort the second row. -/
theorem numeric_row_filters_skip_witness :
    rowPasses 0 "<" (5 : ℚ) [Cell.mk "x" none] = false ∧
    cnrLoop 9 0 [gtNineGreen] 1 [[⟨"x", none⟩], [⟨"10", some 10⟩]] =
      .ok ((idxFrom 1 [[Cell.mk "x" none], [Cell.mk "10" (some 10)]]).filterMap
        (fun p => match cellNum? p.2 0 with
          | none => none
          | some v => (cnrColor v [gtNineGreen]).map (cnrRequest 9 p.1 0))) :=
  ⟨numeric_row_filters_skip.2.1 0 "<" 5 [Cell.mk "x" none] rfl,
   numeric_row_filters_skip.2.2.1 9 0 [gtNineGreen]
     (by
       intro r hr hb
       rw [List.mem_singleton] at hr
       subst hr
       simp [gtNineGreen] at hb) 1
     [[Cell.mk "x" none], [Cell.mk "10" (some 10)]]⟩

-- -------------------------------------------------------------------
-- C6 / C9: GROUNDING — INVERSION AND STABILITY LEMMAS
-- -------------------------------------------------------------------

theorem ground_columns_ok_elim {score : String → String → ℚ} {inst : Instruction}
    {cols : List String} {inst' : Instruction}
    (h : ground_columns score inst cols = .ok inst') :
    ∃ c o f tc sort rules,
      groundField score cols inst.column = .ok c ∧
      groundField score cols inst.old_name = .ok o ∧
      groundField score cols inst.fromCol = .ok f ∧
      groundTarget score cols inst.target_column inst.auto_new_column = .ok tc ∧
      groundSortOpt score cols inst.action inst.sort = .ok sort ∧
      groundRulesOpt score cols inst.rules = .ok rules ∧
      inst' = { inst with
                column := c, old_name := o, fromCol := f,
                target_column := tc.1, auto_new_column := tc.2,
                sort := sort, rules := rules } := by
  unfold ground_columns at h
  cases h1 : groundField score cols inst.column with
  | error e => rw [h1, error_bind] at h; exact absurd h (by simp)
  | ok c =>
  rw [h1, ok_bind] at h
  cases h2 : groundField score cols inst.old_name with
  | error e => rw [h2, error_bind] at h; exact absurd h (by simp)
  | ok o =>
  rw [h2, ok_bind] at h
  cases h3 : groundField score cols inst.fromCol with
  | error e => rw [h3, error_bind] at h; exact absurd h (by simp)
  | ok f =>
  rw [h3, ok_bind] at h
  cases h4 : groundTarget score cols inst.target_column inst.auto_new_column with
  | error e => rw [h4, error_bind] at h; exact absurd h (by simp)
  | ok tc =>
  rw [h4, ok_bind] at h
  cases h5 : groundSortOpt score cols inst.action inst.sort with
  | error e => rw [h5, error_bind] at h; exact absurd h (by simp)
  | ok sort =>
  rw [h5, ok_bind] at h
  cases h6 : groundRulesOpt score cols inst.rules with
  | error e => rw [h6, error_bind] at h; exact absurd h (by simp)
  | ok rules =>
  rw [h6, ok_bind] at h
  simp only [Except.ok.injEq] at h
  exact ⟨c, o, f, tc, sort, rules, rfl, rfl, rfl, rfl, rfl, rfl, h.symm⟩

theorem ground_columns_ok_intro {score : String → String → ℚ} {inst : Instruction}
    {cols : List String} {c o f : Option String} {tc : Option String × Option ℕ}
    {sort : Option (List SortSpec)} {rules : Option (List Rule)}
    (h1 : groundField score cols inst.column = .ok c)
    (h2 : groundField score cols inst.old_name = .ok o)
    (h3 : groundField score cols inst.fromCol = .ok f)
    (h4 : groundTarget score cols inst.target_column inst.auto_new_column = .ok tc)
    (h5 : groundSortOpt score cols inst.action inst.sort = .ok sort)
    (h6 : groundRulesOpt score cols inst.rules = .ok rules) :
    ground_columns score inst cols =
      .ok { inst with
            column := c, old_name := o, fromCol := f,
            target_column := tc.1, auto_new_column := tc.2,
            sort := sort, rules := rules } := by
  unfold ground_columns
  rw [h1, ok_bind, h2, ok_bind, h3, ok_bind, h4, ok_bind, h5, ok_bind, h6, ok_bind]

theorem groundField_stable {score : String → String → ℚ} {cols : List String}
    {v w : Option String} (h : groundField score cols v = .ok w) :
    groundField score cols w = .ok w := by
  cases v with
  | none =>
    simp only [groundField, Except.ok.injEq] at h
    subst h
    rfl
  | some s =>
    simp only [groundField] at h
    by_cases hs : s ∈ cols
    · rw [if_pos hs] at h
      simp only [Except.ok.injEq] at h
      subst h
      simp [groundField, hs]
    · rw [if_neg hs] at h
      cases hf : fuzzy_match_column score s cols 60 with
      | error e => rw [hf] at h; exact absurd h (by simp [Except.map])
      | ok m =>
        rw [hf] at h
        simp only [Except.map, Except.ok.injEq] at h
        subst h
        have hm : m ∈ cols := fuzzy_match_column_mem score s cols 60 m hf
        simp [groundField, hm]

theorem groundTarget_stable {score : String → String → ℚ} {cols : List String}
    {tc : Option String} {auto : Option ℕ} {out : Option String × Option ℕ}
    (h : groundTarget score cols tc auto = .ok out)
    (htc : ∀ t, tc = some t → pyStripStr t ≠ "")
    (hcols : ∀ c ∈ cols, pyStripStr c ≠ "") :
    groundTarget score cols out.1 out.2 = .ok out := by
  cases tc with
  | none =>
    simp only [groundTarget, Except.ok.injEq] at h
    subst h
    rfl
  | some t =>
    have hblank : ¬ (pyStripStr t = "") := htc t rfl
    simp only [groundTarget] at h
    rw [if_neg hblank] at h
    by_cases hmem : t ∈ cols
    · rw [if_pos hmem] at h
      simp only [Except.ok.injEq] at h
      subst h
      simp [groundTarget, hblank, hmem]
    · rw [if_neg hmem] at h
      cases hf : fuzzy_match_column score t cols 60 with
      | error e => rw [hf] at h; exact absurd h (by simp [Except.map])
      | ok m =>
        rw [hf] at h
        simp only [Except.map, Except.ok.injEq] at h
        subst h
        have hm : m ∈ cols := fuzzy_match_column_mem score t cols 60 m hf
        have hmb : ¬ (pyStripStr m = "") := hcols m hm
        simp [groundTarget, hmb, hm]

theorem groundSortSpec_stable {score : String → String → ℚ} {cols : List String}
    {sp sp' : SortSpec} (h : groundSortSpec score cols sp = .ok sp') :
    groundSortSpec score cols sp' = .ok sp' := by
  cases hc : sp.column with
  | none =>
    simp only [groundSortSpec, hc, Except.ok.injEq] at h
    subst h
    simp only [groundSortSpec, hc]
  | some s =>
    simp only [groundSortSpec, hc] at h
    by_cases hs : s ∈ cols
    · rw [if_pos hs] at h
      simp only [Except.ok.injEq] at h
      subst h
      simp only [groundSortSpec, hc]
      rw [if_pos hs]
    · rw [if_neg hs] at h
      cases hf : fuzzy_match_column score s cols 60 with
      | error e => rw [hf] at h; exact absurd h (by simp [Except.map])
      | ok m =>
        rw [hf] at h
        simp only [Except.map, Except.ok.injEq] at h
        subst h
        have hm : m ∈ cols := fuzzy_match_column_mem score s cols 60 m hf
        simp [groundSortSpec, hm]

theorem groundRule_stable {score : String → String → ℚ} {cols : List String}
    {r r' : Rule} (h : groundRule score cols r = .ok r') :
    groundRule score cols r' = .ok r' := by
  cases hc : r.column with
  | none =>
    simp only [groundRule, hc, Except.ok.injEq] at h
    subst h
    simp only [groundRule, hc]
  | some s =>
    simp only [groundRule, hc] at h
    by_cases hs : s ∈ cols
    · rw [if_pos hs] at h
      simp only [Except.ok.injEq] at h
      subst h
      simp only [groundRule, hc]
      rw [if_pos hs]
    · rw [if_neg hs] at h
      cases hf : fuzzy_match_column score s cols 60 with
      | error e => rw [hf] at h; exact absurd h (by simp [Except.map])
      | ok m =>
        rw [hf] at h
        simp only [Except.map, Except.ok.injEq] at h
        subst h
        have hm : m ∈ cols := fuzzy_match_column_mem score s cols 60 m hf
        simp [groundRule, hm]

theorem groundSpecs_stable {score : String → String → ℚ} {cols : List String}
    {l l' : List SortSpec} (h : groundSpecs score cols l = .ok l') :
    groundSpecs score cols l' = .ok l' := by
  induction l generalizing l' with
  | nil =>
    simp only [groundSpecs, Except.ok.injEq] at h
    subst h
    rfl
  | cons sp rest ih =>
    unfold groundSpecs at h
    cases h1 : groundSortSpec score cols sp with
    | error e => rw [h1, error_bind] at h; exact absurd h (by simp)
    | ok sp' =>
    rw [h1, ok_bind] at h
    cases h2 : groundSpecs score cols rest with
    | error e => rw [h2, error_bind] at h; exact absurd h (by simp)
    | ok rest' =>
    rw [h2, ok_bind] at h
    simp only [Except.ok.injEq] at h
    subst h
    unfold groundSpecs
    rw [groundSortSpec_stable h1, ok_bind, ih h2, ok_bind]

theorem groundRules_stable {score : String → String → ℚ} {cols : List String}
    {l l' : List Rule} (h : groundRules score cols l = .ok l') :
    groundRules score cols l' = .ok l' := by
  induction l generalizing l' with
  | nil =>
    simp only [groundRules, Except.ok.injEq] at h
    subst h
    rfl
  | cons r rest ih =>
    unfold groundRules at h
    cases h1 : groundRule score cols r with
    | error e => rw [h1, error_bind] at h; exact absurd h (by simp)
    | ok r' =>
    rw [h1, ok_bind] at h
    cases h2 : groundRules score cols rest with
    | error e => rw [h2, error_bind] at h; exact absurd h (by simp)
    | ok rest' =>
    rw [h2, ok_bind] at h
    simp only [Except.ok.injEq] at h
    subst h
    unfold groundRules
    rw [groundRule_stable h1, ok_bind, ih h2, ok_bind]

theorem groundSortOpt_stable {score : String → String → ℚ} {cols : List String}
    {action : Option String} {sort sort' : Option (List SortSpec)}
    (h : groundSortOpt score cols action sort = .ok sort') :
    groundSortOpt score cols action sort' = .ok sort' := by
  unfold groundSortOpt at h ⊢
  by_cases ha : action = some "multicolumn_sort"
  · rw [if_pos ha] at h ⊢
    cases sort with
    | none =>
      simp only [Except.ok.injEq] at h
      subst h
      rfl
    | some specs =>
      have h' : Except.map some (groundSpecs score cols specs) = Except.ok sort' := h
      cases hg : groundSpecs score cols specs with
      | error e => rw [hg] at h'; exact absurd h' (by simp [Except.map])
      | ok specs' =>
        rw [hg] at h'
        simp only [Except.map, Except.ok.injEq] at h'
        subst h'
        show Except.map some (groundSpecs score cols specs') = Except.ok (some specs')
        rw [groundSpecs_stable hg]
        rfl
  · rw [if_neg ha] at h ⊢

theorem groundRulesOpt_stable {score : String → String → ℚ} {cols : List String}
    {rules rules' : Option (List Rule)}
    (h : groundRulesOpt score cols rules = .ok rules') :
    groundRulesOpt score cols rules' = .ok rules' := by
  cases rules with
  | none =>
    simp only [groundRulesOpt, Except.ok.injEq] at h
    subst h
    rfl
  | some rs =>
    simp only [groundRulesOpt] at h
    cases hg : groundRules score cols rs with
    | error e => rw [hg] at h; exact absurd h (by simp [Except.map])
    | ok rs' =>
      rw [hg] at h
      simp only [Except.map, Except.ok.injEq] at h
      subst h
      simp only [groundRulesOpt]
      rw [groundRules_stable hg]
      rfl

/-- C6 counterexample: grounding is not idempotent.  Grounding a blank
target column synthesizes `Column_2`; grounding the result again
fuzzy-rewrites `Column_2` (absent from the schema) to `A`. -/
theorem ground_not_idempotent_cex :
    ground_columns zeroScore groundCexInst ["A"] = .ok groundCexInst1 ∧
    ground_columns zeroScore groundCexInst1 ["A"] = .ok groundCexInst2 ∧
    groundCexInst2 ≠ groundCexInst1 := by decide

/-- C6 (amended): grounding is idempotent except on the
synthesize-new-target path: if the instruction's `target_column` is
absent or non-blank and the schema's column names are non-blank, then
grounding an already-grounded instruction against the same schema
returns it unchanged. -/
theorem ground_idempotent (score : String → String → ℚ) {inst inst' : Instruction}
    {cols : List String}
    (h : ground_columns score inst cols = .ok inst')
    (htc : ∀ t, inst.target_column = some t → pyStripStr t ≠ "")
    (hcols : ∀ c ∈ cols, pyStripStr c ≠ "") :
    ground_columns score inst' cols = .ok inst' := by
  obtain ⟨c, o, f, tc, sort, rules, h1, h2, h3, h4, h5, h6, hrec⟩ := ground_columns_ok_elim h
  subst hrec
  exact ground_columns_ok_intro (groundField_stable h1) (groundField_stable h2)
    (groundField_stable h3) (groundTarget_stable h4 htc hcols)
    (groundSortOpt_stable h5) (groundRulesOpt_stable h6)

/-- Witness for C6's amended claim: `column := "nam"` grounds to `"Name"`
and a second grounding pass is the identity. -/
theorem ground_idempotent_witness :
    ground_columns zeroScore { action := some "sort", column := some "Name" } ["Name"] =
      .ok { action := some "sort", column := some "Name" } :=
  @ground_idempotent zeroScore { action := some "sort", column := some "nam" }
    { action := some "sort", column := some "Name" } ["Name"]
    (by decide) (fun t ht => nomatch ht) (by decide)

theorem groundSortSpec_ascending {score : String → String → ℚ} {cols : List String}
    {sp sp' : SortSpec} (h : groundSortSpec score cols sp = .ok sp') :
    sp'.ascending = sp.ascending := by
  cases hc : sp.column with
  | none =>
    simp only [groundSortSpec, hc, Except.ok.injEq] at h
    subst h
    rfl
  | some s =>
    simp only [groundSortSpec, hc] at h
    by_cases hs : s ∈ cols
    · rw [if_pos hs] at h
      simp only [Except.ok.injEq] at h
      subst h
      rfl
    · rw [if_neg hs] at h
      cases hf : fuzzy_match_column score s cols 60 with
      | error e => rw [hf] at h; exact absurd h (by simp [Except.map])
      | ok m =>
        rw [hf] at h
        simp only [Except.map, Except.ok.injEq] at h
        subst h
        rfl

theorem groundRule_shape {score : String → String → ℚ} {cols : List String}
    {r r' : Rule} (h : groundRule score cols r = .ok r') :
    ruleShape r' = ruleShape r := by
  cases hc : r.column with
  | none =>
    simp only [groundRule, hc, Except.ok.injEq] at h
    subst h
    rfl
  | some s =>
    simp only [groundRule, hc] at h
    by_cases hs : s ∈ cols
    · rw [if_pos hs] at h
      simp only [Except.ok.injEq] at h
      subst h
      rfl
    · rw [if_neg hs] at h
      cases hf : fuzzy_match_column score s cols 60 with
      | error e => rw [hf] at h; exact absurd h (by simp [Except.map])
      | ok m =>
        rw [hf] at h
        simp only [Except.map, Except.ok.injEq] at h
        subst h
        rfl

theorem groundSpecs_ascending {score : String → String → ℚ} {cols : List String}
    {l l' : List SortSpec} (h : groundSpecs score cols l = .ok l') :
    l'.map (·.ascending) = l.map (·.ascending) := by
  induction l generalizing l' with
  | nil =>
    simp only [groundSpecs, Except.ok.injEq] at h
    subst h
    rfl
  | cons sp rest ih =>
    unfold groundSpecs at h
    cases h1 : groundSortSpec score cols sp with
    | error e => rw [h1, error_bind] at h; exact absurd h (by simp)
    | ok sp' =>
    rw [h1, ok_bind] at h
    cases h2 : groundSpecs score cols rest with
    | error e => rw [h2, error_bind] at h; exact absurd h (by simp)
    | ok rest' =>
    rw [h2, ok_bind] at h
    simp only [Except.ok.injEq] at h
    subst h
    simp [groundSortSpec_ascending h1, ih h2]

theorem groundRules_shape {score : String → String → ℚ} {cols : List String}
    {l l' : List Rule} (h : groundRules score cols l = .ok l') :
    l'.map ruleShape = l.map ruleShape := by
  induction l generalizing l' with
  | nil =>
    simp only [groundRules, Except.ok.injEq] at h
    subst h
    rfl
  | cons r rest ih =>
    unfold groundRules at h
    cases h1 : groundRule score cols r with
    | error e => rw [h1, error_bind] at h; exact absurd h (by simp)
    | ok r' =>
    rw [h1, ok_bind] at h
    cases h2 : groundRules score cols rest with
    | error e => rw [h2, error_bind] at h; exact absurd h (by simp)
    | ok rest' =>
    rw [h2, ok_bind] at h
    simp only [Except.ok.injEq] at h
    subst h
    simp [groundRule_shape h1, ih h2]

theorem groundSortOpt_ascending {score : String → String → ℚ} {cols : List String}
    {action : Option String} {sort sort' : Option (List SortSpec)}
    (h : groundSortOpt score cols action sort = .ok sort') :
    sort'.map (·.map (·.ascending)) = sort.map (·.map (·.ascending)) := by
  unfold groundSortOpt at h
  by_cases ha : action = some "multicolumn_sort"
  · rw [if_pos ha] at h
    cases sort with
    | none =>
      simp only [Except.ok.injEq] at h
      subst h
      rfl
    | some specs =>
      have h' : Except.map some (groundSpecs score cols specs) = Except.ok sort' := h
      cases hg : groundSpecs score cols specs with
      | error e => rw [hg] at h'; exact absurd h' (by simp [Except.map])
      | ok specs' =>
        rw [hg] at h'
        simp only [Except.map, Except.ok.injEq] at h'
        subst h'
        simp [groundSpecs_ascending hg]
  · rw [if_neg ha] at h
    simp only [Except.ok.injEq] at h
    subst h
    rfl

theorem groundRulesOpt_shape {score : String → String → ℚ} {cols : List String}
    {rules rules' : Option (List Rule)}
    (h : groundRulesOpt score cols rules = .ok rules') :
    rules'.map (·.map ruleShape) = rules.map (·.map ruleShape) := by
  cases rules with
  | none =>
    simp only [groundRulesOpt, Except.ok.injEq] at h
    subst h
    rfl
  | some rs =>
    simp only [groundRulesOpt] at h
    cases hg : groundRules score cols rs with
    | error e => rw [hg] at h; exact absurd h (by simp [Except.map])
    | ok rs' =>
      rw [hg] at h
      simp only [Except.map, Except.ok.injEq] at h
      subst h
      simp [groundRules_shape hg]

/-- C9: grounding rewrites only column-reference fields.  The action
discriminant and every structural field — including the `to` field, even
when its value is absent from the schema columns — are unchanged by
`ground_columns`; nested sort specs keep their `ascending` flags and
nested rules keep all their non-`column` fields.  (`auto_new_column` is
the grounder's own create-column marker, set on the blank-target path,
not a structural field of the parsed action.) -/
theorem ground_columns_frame (score : String → String → ℚ)
    {inst inst' : Instruction} {cols : List String}
    (h : ground_columns score inst cols = .ok inst') :
    inst'.action = inst.action ∧
    inst'.toCol = inst.toCol ∧
    inst'.new_name = inst.new_name ∧
    inst'.operator = inst.operator ∧
    inst'.value = inst.value ∧
    inst'.ascending = inst.ascending ∧
    inst'.row = inst.row ∧
    inst'.position = inst.position ∧
    inst'.new_position = inst.new_position ∧
    inst'.column_name = inst.column_name ∧
    inst'.formula = inst.formula ∧
    inst'.color = inst.color ∧
    inst'.equals = inst.equals ∧
    inst'.range = inst.range ∧
    inst'.rows = inst.rows ∧
    inst'.cols = inst.cols ∧
    inst'.merge_type = inst.merge_type ∧
    inst'.from_row = inst.from_row ∧
    inst'.to_row = inst.to_row ∧
    inst'.sort.map (·.map (·.ascending)) = inst.sort.map (·.map (·.ascending)) ∧
    inst'.rules.map (·.map ruleShape) = inst.rules.map (·.map ruleShape) := by
  obtain ⟨c, o, f, tc, sort, rules, _, _, _, _, h5, h6, hrec⟩ := ground_columns_ok_elim h
  subst hrec
  refine ⟨rfl, rfl, rfl, rfl, rfl, rfl, rfl, rfl, rfl, rfl, rfl, rfl, rfl, rfl, rfl,
    rfl, rfl, rfl, rfl, ?_, ?_⟩
  · exact groundSortOpt_ascending h5
  · exact groundRulesOpt_shape h6

/-- Witness for C9: a `copy_column` instruction whose `to` names a column
absent from the schema; grounding rewrites `from` but leaves `to`, the
action and `new_name` unchanged. -/
theorem ground_columns_frame_witness :
    ground_columns zeroScore
      { action := some "copy_column", fromCol := some "nam", toCol := some "Name Copy" }
      ["Name"] =
    .ok { action := some "copy_column", fromCol := some "Name", toCol := some "Name Copy" } ∧
    ({ action := some "copy_column", fromCol := some "Name",
       toCol := some "Name Copy" } : Instruction).toCol = some "Name Copy" := by
  have hg : ground_columns zeroScore
      { action := some "copy_column", fromCol := some "nam", toCol := some "Name Copy" }
      ["Name"] =
    .ok { action := some "copy_column", fromCol := some "Name",
          toCol := some "Name Copy" } := by decide
  refine ⟨hg, ?_⟩
  have hfr := (ground_columns_frame zeroScore hg).2.1
  rw [hfr]

theorem execute_parse_fail (score : String → String → ℚ)
    (decode : String → Except String Instruction) (env : Env)
    (sheet_name : String) (header_row : ℕ) (sid : ℕ) (hdrs : List String) (e : String)
    (hprep : execPrep env sheet_name = .ok (sid, hdrs))
    (hdec : decode (stripRaw env.oracle_raw) = .error e) :
    execute score decode env sheet_name header_row =
      .ok { status := "error", message := some "Failed to parse instruction",
            details := some (stripRaw env.oracle_raw, e) } := by
  simp only [execute, hprep, ok_bind, parse_instruction_llm, hdec]

theorem execute_unknown_action (score : String → String → ℚ)
    (decode : String → Except String Instruction) (env : Env)
    (sheet_name : String) (header_row : ℕ) (sid : ℕ) (hdrs : List String)
    (inst0 inst : Instruction) (a : String)
    (hprep : execPrep env sheet_name = .ok (sid, hdrs))
    (hdec : decode (stripRaw env.oracle_raw) = .ok inst0)
    (hg : ground_columns score inst0 hdrs = .ok inst)
    (ha : inst.action = some a) (hmem : a ∉ knownActions) :
    execute score decode env sheet_name header_row =
      .ok { status := "error", message := some ("Unknown action: " ++ a) } := by
  simp only [knownActions, List.mem_cons, List.mem_singleton, not_or] at hmem
  obtain ⟨n1, n2, n3, n4, n5, n6, n7, n8, n9, n10, n11, n12, n13, n14, n15, n16,
    n17, n18, n19, n20, n21, n22, n23, n24, n25, n26, n27⟩ := hmem
  simp only [execute, hprep, ok_bind, parse_instruction_llm, hdec, hg]
  simp [dispatch, ha, actionName, n1, n2, n3, n4, n5, n6, n7, n8, n9, n10, n11, n12,
    n13, n14, n15, n16, n17, n18, n19, n20, n21, n22, n23, n24, n25, n26, n27]

theorem execute_missing_sheet (env : Env) (sheet_name : String)
    (h : get_sheet_id_by_name env.sheets sheet_name = none)
    (score : String → String → ℚ) (decode : String → Except String Instruction)
    (header_row : ℕ) :
    execute score decode env sheet_name header_row =
      .error ("RuntimeError: Sheet '" ++ sheet_name ++ "' not found") := by
  simp only [execute, execPrep, h, error_bind]

theorem execute_no_header (env : Env) (sheet_name : String) (s : SheetInfo)
    (hfind : env.sheets.find? (fun t => t.title == sheet_name) = some s)
    (hheader : env.header_vals = [])
    (score : String → String → ℚ) (decode : String → Except String Instruction)
    (header_row : ℕ) :
    execute score decode env sheet_name header_row =
      .error "RuntimeError: Could not read header row" := by
  simp [execute, execPrep, get_sheet_id_by_name, hfind, hheader, error_bind, ok_bind]

/-- C7: an oracle output that is not decodable as JSON yields a result
object with status `error` whose message contains `"parse"`, not an
uncaught failure. -/
theorem execute_malformed_oracle (score : String → String → ℚ)
    (decode : String → Except String Instruction) (env : Env)
    (sheet_name : String) (header_row : ℕ) (sid : ℕ) (hdrs : List String) (e : String)
    (hprep : execPrep env sheet_name = .ok (sid, hdrs))
    (hdec : decode (stripRaw env.oracle_raw) = .error e) :
    ∃ r, execute score decode env sheet_name header_row = .ok r ∧
      r.status = "error" ∧ strContains (r.message.getD "") "parse" = true :=
  ⟨_, execute_parse_fail score decode env sheet_name header_row sid hdrs e hprep hdec,
   rfl, (by decide : strContains "Failed to parse instruction" "parse" = true)⟩

/-- Witness for C7 at the claim's prose reply
`"Sure! Here's your answer: sort by CGPA"`. -/
theorem execute_malformed_oracle_witness :
    ∃ r, execute zeroScore proseDecode proseEnv "Sheet1" 1 = .ok r ∧
      r.status = "error" ∧ strContains (r.message.getD "") "parse" = true :=
  execute_malformed_oracle zeroScore proseDecode proseEnv "Sheet1" 1 0
    ["Roll No", "Name", "CGPA"] "Expecting value: line 1 column 1 (char 0)"
    (by decide) rfl

/-- C1 counterexample: when no sheet matches the requested name,
`execute` raises `RuntimeError` — an exception escapes the pipeline on a
path other than the merged-cell recovery, so the claim that only a
structured result is ever returned is false. -/
theorem execute_exception_cex :
    execute zeroScore proseDecode {} "Sheet1" 1 =
      .error "RuntimeError: Sheet 'Sheet1' not found" := by decide

/-- C1 (amended): `execute` returns a structured error result on the
oracle-parse-failure and unknown-action paths, and the merged-cell
conflict is recovered locally (unmerge then retry); but on other failure
paths — a sheet name with no matching sheet, an unreadable header row, a
re-raised non-merged-cell service error — a Python exception escapes the
pipeline instead of a result object. -/
theorem execute_error_contract :
    (∀ (score : String → String → ℚ) (decode : String → Except String Instruction)
      (env : Env) (sheet_name : String) (header_row sid : ℕ) (hdrs : List String)
      (e : String),
      execPrep env sheet_name = .ok (sid, hdrs) →
      decode (stripRaw env.oracle_raw) = .error e →
      execute score decode env sheet_name header_row =
        .ok { status := "error", message := some "Failed to parse instruction",
              details := some (stripRaw env.oracle_raw, e) }) ∧
    (∀ (score : String → String → ℚ) (decode : String → Except String Instruction)
      (env : Env) (sheet_name : String) (header_row sid : ℕ) (hdrs : List String)
      (inst0 inst : Instruction) (a : String),
      execPrep env sheet_name = .ok (sid, hdrs) →
      decode (stripRaw env.oracle_raw) = .ok inst0 →
      ground_columns score inst0 hdrs = .ok inst →
      inst.action = some a → a ∉ knownActions →
      execute score decode env sheet_name header_row =
        .ok { status := "error", message := some ("Unknown action: " ++ a) }) ∧
    (∀ (env : Env) (sheet_name : String),
      get_sheet_id_by_name env.sheets sheet_name = none →
      ∀ (score : String → String → ℚ) (decode : String → Except String Instruction)
        (header_row : ℕ),
        execute score decode env sheet_name header_row =
          .error ("RuntimeError: Sheet '" ++ sheet_name ++ "' not found")) ∧
    (∀ (env : Env) (sheet_name : String) (s : SheetInfo),
      env.sheets.find? (fun t => t.title == sheet_name) = some s →
      env.header_vals = [] →
      ∀ (score : String → String → ℚ) (decode : String → Except String Instruction)
        (header_row : ℕ),
        execute score decode env sheet_name header_row =
          .error "RuntimeError: Could not read header row") ∧
    execute zeroScore dupDecode dupEnvBad "Sheet1" 1 =
      .error "HttpError 400: bad request" ∧
    execute zeroScore dupDecode dupEnvMerged "Sheet1" 1 =
      .ok { status := "success", action := some "remove_duplicates",
            requests := [unmerge_all 0, remove_duplicates 0 0] } :=
  ⟨fun score decode env sheet_name header_row sid hdrs e hprep hdec =>
    execute_parse_fail score decode env sheet_name header_row sid hdrs e hprep hdec,
   fun score decode env sheet_name header_row sid hdrs inst0 inst a hprep hdec hg ha hmem =>
    execute_unknown_action score decode env sheet_name header_row sid hdrs inst0 inst a
      hprep hdec hg ha hmem,
   fun env sheet_name h score decode header_row =>
    execute_missing_sheet env sheet_name h score decode header_row,
   fun env sheet_name s hfind hheader score decode header_row =>
    execute_no_header env sheet_name s hfind hheader score decode header_row,
   by decide, by decide⟩

/-- Witness for C1's amended claim: an unknown action yields a
structured error result, a missing sheet raises. -/
theorem execute_error_contract_witness :
    execute zeroScore unknownDecode unknownEnv "Sheet1" 1 =
      .ok { status := "error", message := some ("Unknown action: " ++ "dance") } ∧
    execute zeroScore proseDecode {} "Sheet2" 1 =
      .error ("RuntimeError: Sheet '" ++ "Sheet2" ++ "' not found") ∧
    execute zeroScore proseDecode { sheets := [⟨"S", 3, {}⟩] } "S" 1 =
      .error "RuntimeError: Could not read header row" :=
  ⟨execute_error_contract.2.1 zeroScore unknownDecode unknownEnv "Sheet1" 1 0 ["A"]
     { action := some "dance" } { action := some "dance" } "dance"
     (by decide) rfl (by decide) rfl (by decide),
   execute_error_contract.2.2.1 {} "Sheet2" rfl zeroScore proseDecode 1,
   execute_error_contract.2.2.2.1 { sheets := [⟨"S", 3, {}⟩] } "S" ⟨"S", 3, {}⟩
     (by decide) rfl zeroScore proseDecode 1⟩

-- -------------------------------------------------------------------
-- C10: A1 PARSING IS PARTIAL; color_row / color_column ALWAYS FAIL
-- -------------------------------------------------------------------

theorem digitChar_isDigit09 (m : ℕ) (h : m < 10) :
    isDigit09 (Nat.digitChar m) = true := by
  interval_cases m <;> decide

theorem toDigitsCore_digits (fuel : ℕ) :
    ∀ (n : ℕ) (acc : List Char), (∀ c ∈ acc, isDigit09 c = true) →
      ∀ c ∈ Nat.toDigitsCore 10 fuel n acc, isDigit09 c = true := by
  induction fuel with
  | zero =>
    intro n acc hacc c hc
    simp only [Nat.toDigitsCore] at hc
    exact hacc c hc
  | succ fuel ih =>
    intro n acc hacc c hc
    simp only [Nat.toDigitsCore] at hc
    by_cases hz : n / 10 = 0
    · rw [if_pos hz] at hc
      rcases List.mem_cons.mp hc with hc | hc
      · subst hc; exact digitChar_isDigit09 _ (Nat.mod_lt _ (by norm_num))
      · exact hacc c hc
    · rw [if_neg hz] at hc
      refine ih (n / 10) (Nat.digitChar (n % 10) :: acc) ?_ c hc
      intro d hd
      rcases List.mem_cons.mp hd with hd | hd
      · subst hd; exact digitChar_isDigit09 _ (Nat.mod_lt _ (by norm_num))
      · exact hacc d hd

theorem natRepr_digits (n : ℕ) : ∀ c ∈ (Nat.repr n).data, isDigit09 c = true := by
  intro c hc
  have hrepr : (Nat.repr n).data = Nat.toDigitsCore 10 (n + 1) n [] := rfl
  rw [hrepr] at hc
  exact toDigitsCore_digits (n + 1) n [] (by intro d hd; cases hd) c hc

theorem intRepr_chars (i : ℤ) :
    ∀ c ∈ (Int.repr i).data, isDigit09 c = true ∨ c = '-' := by
  intro c hc
  cases i with
  | ofNat m =>
    simp only [Int.repr] at hc
    exact Or.inl (natRepr_digits m c hc)
  | negSucc m =>
    have hd : (Int.repr (Int.negSucc m)).data = '-' :: (Nat.repr (m + 1)).data := by
      simp only [Int.repr, String.data_append]
      rfl
    rw [hd] at hc
    rcases List.mem_cons.mp hc with hc | hc
    · exact Or.inr hc
    · exact Or.inl (natRepr_digits (m + 1) c hc)

theorem digit_or_minus_not_upper {c : Char} (h : isDigit09 c = true ∨ c = '-') :
    isUpperAZ c = false := by
  rcases h with h | h
  · simp only [isDigit09, Bool.and_eq_true, decide_eq_true_eq] at h
    by_contra hb
    have hAZ : isUpperAZ c = true := by
      cases hiu : isUpperAZ c with
      | false => exact absurd hiu hb
      | true => rfl
    simp only [isUpperAZ, Bool.and_eq_true, decide_eq_true_eq] at hAZ
    exact absurd (le_trans hAZ.1 h.2) (by decide)
  · subst h; decide

theorem digit_or_minus_ne_colon {c : Char} (h : isDigit09 c = true ∨ c = '-') :
    c ≠ ':' := by
  rcases h with h | h
  · intro hc; subst hc; exact absurd h (by decide)
  · subst h; decide

theorem matchCell_no_upper_head (l : List Char)
    (h : ∀ c ∈ l, isDigit09 c = true ∨ c = '-') : matchCell l = none := by
  cases l with
  | nil => rfl
  | cons c rest =>
    have hc : isUpperAZ c = false := digit_or_minus_not_upper (h c (by simp))
    simp [matchCell, List.takeWhile_cons, hc]

theorem matchCell_all_upper (l : List Char)
    (h : ∀ c ∈ l, isUpperAZ c = true) : matchCell l = none := by
  have hdrop : l.dropWhile isUpperAZ = [] := List.dropWhile_eq_nil_iff.mpr h
  simp [matchCell, hdrop]

theorem splitColon_no_colon (b : List Char) (hb : ':' ∉ b) : splitColon b = [b] := by
  induction b with
  | nil => rfl
  | cons c rest ih =>
    have hc : ¬ (c = ':') := fun hce => hb (hce ▸ List.mem_cons_self c rest)
    have hrest : ':' ∉ rest := fun hr => hb (List.mem_cons.mpr (Or.inr hr))
    simp [splitColon, hc, ih hrest]

theorem splitColon_append (a b : List Char) (ha : ':' ∉ a) :
    splitColon (a ++ ':' :: b) = a :: splitColon b := by
  induction a with
  | nil => simp [splitColon]
  | cons c rest ih =>
    have hc : ¬ (c = ':') := fun hce => ha (hce ▸ List.mem_cons_self c rest)
    have hrest : ':' ∉ rest := fun hr => ha (List.mem_cons.mpr (Or.inr hr))
    show splitColon (c :: (rest ++ ':' :: b)) = (c :: rest) :: splitColon b
    rw [splitColon, if_neg hc, ih hrest]

theorem a1core_same_endpoint_fails (d : List Char) (hnc : ':' ∉ d)
    (hm : matchCell d = none) :
    a1core (d ++ ':' :: d) = .error a1MatchErr := by
  unfold a1core
  rw [splitColon_append d d hnc, splitColon_no_colon d hnc]
  simp [hm, a1MatchErr]

/-- C10: `a1_to_indexes` succeeds only when both colon-separated
endpoints match letters-then-digits; consequently `color_row` (row-only
range `"<row>:<row>"`) fails for every row number and `color_column`
(letter-only range `"<col>:<col>"`) fails for every letter-only column
name, both with the `AttributeError` raised before any mutation request
is built. -/
theorem a1_partiality :
    (∀ (l : String) (res : ℤ × ℤ × ℤ × ℤ), a1_to_indexes l = .ok res →
      ∃ p q, splitColon l.data = [p, q] ∧ (matchCell p).isSome = true ∧
        (matchCell q).isSome = true) ∧
    (∀ (sheet_id : ℕ) (row : ℤ) (rgb : ℚ × ℚ × ℚ),
      color_row sheet_id row rgb = .error a1MatchErr) ∧
    (∀ (sheet_id : ℕ) (s : String), (∀ c ∈ s.data, isUpperAZ c = true) →
      ∀ (rgb : ℚ × ℚ × ℚ), color_column sheet_id s rgb = .error a1MatchErr) := by
  refine ⟨?_, ?_, ?_⟩
  · intro l res h
    unfold a1_to_indexes a1core at h
    cases hs : splitColon l.data with
    | nil => rw [hs] at h; exact absurd h (by simp)
    | cons p rest =>
      cases rest with
      | nil => rw [hs] at h; exact absurd h (by simp)
      | cons q rest2 =>
        cases rest2 with
        | cons x xs => rw [hs] at h; exact absurd h (by simp)
        | nil =>
          rw [hs] at h
          refine ⟨p, q, rfl, ?_, ?_⟩
          · cases hp : matchCell p with
            | none => exfalso; simp [hp] at h
            | some g => rfl
          · cases hq : matchCell q with
            | none =>
              exfalso
              cases hp : matchCell p with
              | none => simp [hp, hq] at h
              | some g => simp [hp, hq] at h
            | some g => rfl
  · intro sheet_id row rgb
    have hchars := intRepr_chars row
    have hnc : ':' ∉ (Int.repr row).data :=
      fun hc => digit_or_minus_ne_colon (hchars ':' hc) rfl
    have hdata : (Int.repr row ++ ":" ++ Int.repr row).data =
        (Int.repr row).data ++ ':' :: (Int.repr row).data := by
      rw [String.data_append, String.data_append, List.append_assoc]
      rfl
    unfold color_row color_range a1_to_indexes
    rw [hdata, a1core_same_endpoint_fails _ hnc (matchCell_no_upper_head _ hchars)]
    rfl
  · intro sheet_id s hupper rgb
    have hnc : ':' ∉ s.data := by
      intro hc
      have hu := hupper ':' hc
      exact absurd hu (by decide)
    have hdata : (s ++ ":" ++ s).data = s.data ++ ':' :: s.data := by
      rw [String.data_append, String.data_append, List.append_assoc]
      rfl
    unfold color_column color_range a1_to_indexes
    rw [hdata, a1core_same_endpoint_fails _ hnc (matchCell_all_upper _ hupper)]
    rfl

/-- Witness for C10: `color_row 5` and `color_column "C"` both fail, and
a well-formed range still parses (so the success characterization has a
live instance). -/
theorem a1_partiality_witness :
    color_row 0 5 (1, 1, 0) = .error a1MatchErr ∧
    color_column 0 "C" (1, 1, 0) = .error a1MatchErr ∧
    (∃ p q, splitColon ("A2:C10").data = [p, q] ∧ (matchCell p).isSome = true ∧
      (matchCell q).isSome = true) :=
  ⟨a1_partiality.2.1 0 5 (1, 1, 0),
   a1_partiality.2.2 0 "C" (by decide) (1, 1, 0),
   a1_partiality.1 "A2:C10" (1, 10, 0, 2) (by decide)⟩
